import Mathlib

/-!
# jrnf_tools: the network assembler of `main.cpp`

A shallow embedding of the parts of `src/main.cpp` that build a reaction
network from a generated edge list: the helper functions `rm_1to1rev`,
`rm_2to2rev`, `rm_add_species`, `rm_add_species_ne`, the assembler loops of
the `create_*` modes and the parameter checks of the mode dispatch in `main`.

Conventions of the embedding.

* `std::vector<T>` is `List T`; `push_back` appends at the end.  Reading
  `v[i]` and `v.erase(v.begin()+i)` are only defined for `i < v.size()`; the
  embedding returns `none` outside that range.
* `size_t` values are `Nat` (only sizes and positions of vectors occur).
* `double` values are exact rationals `ℚ`; `double(rand())/RAND_MAX` is the
  quotient of the draw by `RAND_MAX`.
* `rand()` is a process-wide stream.  It is threaded explicitly as a
  `RandSrc`: the sequence of values the calls return and the number of calls
  made so far.
* The graph generators and couplers (`create_erdos_renyi`,
  `couple_erdos_renyi`, ...) live in `net_tools/network_tools.h`; their
  results, the vectors `edges` and `couples`, are inputs of the embedding.
-/

namespace JrnfTools

/-! ## Data model -/

/-- An entry of `std::vector< pair<size_t, size_t> >`: an edge `(first, second)`
of the graph, or a coupling pair of edge positions. -/
abbrev Edge := Nat × Nat

/-- Modelled from the spec: the class `species` of `net_tools/reaction_network.h`
(dense integer id, name, constant-concentration flag, energy).  The constructor
call `species(id, name, constant, 0)` of `main.cpp` is `species.mk id name constant 0`. -/
structure species where
  id : Nat
  name : String
  constant : Bool
  energy : ℚ
deriving DecidableEq

/-- Setter `species::set_energy`. -/
def species.set_energy (s : species) (e : ℚ) : species := { s with energy := e }

/-- Modelled from the spec: the class `reaction` of `net_tools/reaction_network.h`
(ordered educt ids, ordered product ids, reversibility flag, activation energy). -/
structure reaction where
  educts : List Nat
  products : List Nat
  reversible : Bool
  activation : ℚ
deriving DecidableEq

/-- A default-constructed `reaction rea;`: no educts and no products yet.  Both
flags are overwritten by every helper below before the reaction is stored. -/
def reaction.new : reaction :=
  { educts := [], products := [], reversible := false, activation := 0 }

/-- Setter `reaction::set_activation`. -/
def reaction.set_activation (r : reaction) (ae : ℚ) : reaction := { r with activation := ae }

/-- Setter `reaction::set_reversible`. -/
def reaction.set_reversible (r : reaction) (b : Bool) : reaction := { r with reversible := b }

/-- Method `reaction::add_educt`: appends an id to the educt sequence. -/
def reaction.add_educt (r : reaction) (a : Nat) : reaction := { r with educts := r.educts ++ [a] }

/-- Method `reaction::add_product`: appends an id to the product sequence. -/
def reaction.add_product (r : reaction) (a : Nat) : reaction :=
  { r with products := r.products ++ [a] }

/-- The process-wide random source: `stream k` is the value the `k`-th call of
`rand()` returns, `calls` the number of calls made so far, `RAND_MAX` the
constant of `<cstdlib>`. -/
structure RandSrc where
  RAND_MAX : Nat
  stream : Nat → Nat
  calls : Nat

/-- One call of `rand()`: the drawn value and the advanced source. -/
def RandSrc.rand (g : RandSrc) : Nat × RandSrc :=
  (g.stream g.calls, { g with calls := g.calls + 1 })

/-- The value `double(r)/RAND_MAX` for a draw `r`. -/
def RandSrc.unit (g : RandSrc) (r : Nat) : ℚ := (r : ℚ) / (g.RAND_MAX : ℚ)

/-! ## Helper functions of `main.cpp` -/

/-- `rm_1to1rev(re, a, b, ae)`: appends the reversible reaction `a <--> b` with
activation energy `ae` (main.cpp 75-83).  The C++ default `ae = 0.0` is passed
explicitly by the callers that omit it. -/
def rm_1to1rev (re : List reaction) (a b : Nat) (ae : ℚ) : List reaction :=
  let rea := reaction.new
  let rea := rea.set_activation ae
  let rea := rea.set_reversible true
  let rea := rea.add_educt a
  let rea := rea.add_product b
  re ++ [rea]

/-- `rm_2to2rev(re, a, b, c, d, ae_dist)`: appends the reversible reaction
`a + b <--> c + d`; its activation energy is a fresh draw divided by `RAND_MAX`
in both branches (main.cpp 111-127). -/
def rm_2to2rev (g : RandSrc) (re : List reaction) (a b c d : Nat) (ae_dist : Nat) :
    List reaction × RandSrc :=
  let rea := reaction.new
  let rea := rea.set_reversible true
  let rea := rea.add_educt a
  let rea := rea.add_educt b
  let rea := rea.add_product c
  let rea := rea.add_product d
  let (r, g1) := g.rand
  let rea := if ae_dist = 0 then rea.set_activation (g.unit r) else rea.set_activation (g.unit r)
  (re ++ [rea], g1)

/-- `rm_add_species(sp, t, energy_dist)`: appends the species `A_t` whose id is
the current length of `sp`; its energy is minus a fresh draw over `RAND_MAX`
for `energy_dist = 0` and plus that quotient otherwise (main.cpp 137-148). -/
def rm_add_species (g : RandSrc) (sp : List species) (t : Nat) (energy_dist : Nat) :
    List species × RandSrc :=
  let s := species.mk sp.length ("A_" ++ toString t) false 0
  let (r, g1) := g.rand
  let s := if energy_dist = 0 then s.set_energy (-(r : ℚ) / (g.RAND_MAX : ℚ))
           else s.set_energy (g.unit r)
  (sp ++ [s], g1)

/-- `rm_add_species_ne(sp, t)`: appends the species `A_t` with energy 0; the id
is the current length of `sp` (main.cpp 156-162). -/
def rm_add_species_ne (sp : List species) (t : Nat) : List species :=
  let s := species.mk sp.length ("A_" ++ toString t) false 0
  sp ++ [s.set_energy 0]

/-! ## Vector access -/

/-- `v.erase(v.begin()+i)`: defined when `i` is a position of `v`. -/
def vec_erase {α : Type} (v : List α) (i : Nat) : Option (List α) :=
  if i < v.length then some (v.eraseIdx i) else none

/-! ## The assembler loops -/

/-- The species loop of the uncoupled modes:
`for(size_t t=0; t<N; ++t) rm_add_species_ne(sp, t);` started on `sp` at `t = t0`
and run for `n` rounds. -/
def species_loop_ne : Nat → Nat → List species → List species
  | 0, _, sp => sp
  | n + 1, t, sp => species_loop_ne n (t + 1) (rm_add_species_ne sp t)

/-- The species loop of the coupled modes:
`for(size_t t=0; t<N; ++t) rm_add_species(sp, t, energy_dist);` -/
def species_loop (energy_dist : Nat) : Nat → Nat → List species → RandSrc →
    List species × RandSrc
  | 0, _, sp, g => (sp, g)
  | n + 1, t, sp, g =>
    let (sp1, g1) := rm_add_species g sp t energy_dist
    species_loop energy_dist n (t + 1) sp1 g1

/-- One round of the coupling loop (main.cpp 439-452): read the two edges at the
positions of the pair, append the binary reaction, erase position `r2` and then
position `r1`. -/
def couple_step (aener_dist : Nat) (edges : List Edge) (re : List reaction) (g : RandSrc)
    (cp : Nat × Nat) : Option (List Edge × List reaction × RandSrc) := do
  let r1 := cp.1
  let r2 := cp.2
  let e1 ← edges[r1]?
  let e2 ← edges[r2]?
  let (re1, g1) := rm_2to2rev g re e1.1 e2.1 e1.2 e2.2 aener_dist
  let edges1 ← vec_erase edges r2
  let edges2 ← vec_erase edges1 r1
  pure (edges2, re1, g1)

/-- The coupling loop `for(size_t i=0; i<couples.size(); ++i) ...`. -/
def couple_loop (aener_dist : Nat) : List (Nat × Nat) → List Edge → List reaction → RandSrc →
    Option (List Edge × List reaction × RandSrc)
  | [], edges, re, g => some (edges, re, g)
  | cp :: rest, edges, re, g =>
    match couple_step aener_dist edges re g cp with
    | none => none
    | some (edges1, re1, g1) => couple_loop aener_dist rest edges1 re1 g1

/-- The loop over the remaining edges of a coupled mode (main.cpp 456-461):
`rm_1to1rev(re, a, b, aener_dist)`, the selector `aener_dist` arriving in the
parameter `double ae`. -/
def unary_loop (aener_dist : Nat) : List Edge → List reaction → List reaction
  | [], re => re
  | e :: rest, re => unary_loop aener_dist rest (rm_1to1rev re e.1 e.2 (aener_dist : ℚ))

/-- The result handed to `write_jrnf_reaction_n`, with the random source after
the run. -/
structure Assembled where
  sp : List species
  re : List reaction
  rnd : RandSrc

/-- The assembler of the coupled modes `create_*_bi_C` (main.cpp 430-463): the
species loop, the coupling loop, the loop over the remaining edges. -/
def assemble_bi_C (energy_dist aener_dist : Nat) (N : Nat) (edges : List Edge)
    (couples : List (Nat × Nat)) (g : RandSrc) : Option Assembled :=
  let (sp, g1) := species_loop energy_dist N 0 [] g
  match couple_loop aener_dist couples edges [] g1 with
  | none => none
  | some (edges1, re, g2) => some { sp := sp, re := unary_loop aener_dist edges1 re, rnd := g2 }

/-- The assembler of the uncoupled modes `create_ER_NM`, `create_BA_NM`,
`create_WS_NMalpha`, `create_PS_NMhmr` (main.cpp 369-380): species without
energy, one `rm_1to1rev(re, first, second)` per edge with the default `ae = 0.0`. -/
def assemble_NM (N : Nat) (edges : List Edge) : List species × List reaction :=
  (species_loop_ne N 0 [], edges.foldl (fun re e => rm_1to1rev re e.1 e.2 0) [])


/-! ## Notions used to state the properties -/

/-- The edge list left by the two erasures of one coupling round as total list
operations: position `cp.2` is erased first, then position `cp.1` of the
shortened list. -/
def erase_pair (edges : List Edge) (cp : Nat × Nat) : List Edge :=
  (edges.eraseIdx cp.2).eraseIdx cp.1

/-- The edge list after the rounds of all pairs of `couples`, in order. -/
def edges_after (edges : List Edge) (couples : List (Nat × Nat)) : List Edge :=
  couples.foldl erase_pair edges

/-- The edge list as it stands when pair number `k` is processed: the erasures
of the first `k` pairs have been done. -/
def edges_at (edges : List Edge) (couples : List (Nat × Nat)) (k : Nat) : List Edge :=
  edges_after edges (couples.take k)

/-- Every pair addresses two distinct valid positions of the edge list at the
moment it is processed: both positions are positions of the current list, and
position `cp.1` is still a position when its erasure runs, after the erasure of
position `cp.2` (automatic when `cp.1 < cp.2`). -/
def couples_valid : List Edge → List (Nat × Nat) → Prop
  | _, [] => True
  | edges, cp :: rest =>
    cp.1 ≠ cp.2 ∧ cp.1 < edges.length ∧ cp.2 < edges.length ∧
      cp.1 < (edges.eraseIdx cp.2).length ∧ couples_valid (erase_pair edges cp) rest

/-- Decision procedure for `couples_valid`. -/
instance couples_valid_dec : ∀ (edges : List Edge) (couples : List (Nat × Nat)),
    Decidable (couples_valid edges couples)
  | _, [] => isTrue trivial
  | edges, cp :: rest =>
    have : Decidable (couples_valid (erase_pair edges cp) rest) :=
      couples_valid_dec (erase_pair edges cp) rest
    inferInstanceAs (Decidable (cp.1 ≠ cp.2 ∧ cp.1 < edges.length ∧ cp.2 < edges.length ∧
      cp.1 < (edges.eraseIdx cp.2).length ∧ couples_valid (erase_pair edges cp) rest))

/-- A reaction of the form `a + b <--> c + d`. -/
def is_binary (r : reaction) : Bool := r.educts.length == 2 && r.products.length == 2

/-- A reaction of the form `a <--> b`. -/
def is_unary (r : reaction) : Bool := r.educts.length == 1 && r.products.length == 1

/-- The reversible unary reaction of an edge with activation energy `ae`. -/
def unary_of (ae : ℚ) (e : Edge) : reaction :=
  { educts := [e.1], products := [e.2], reversible := true, activation := ae }

/-- The reversible binary reaction of two edges with activation energy `ae`. -/
def binary_of (ae : ℚ) (e1 e2 : Edge) : reaction :=
  { educts := [e1.1, e2.1], products := [e1.2, e2.2], reversible := true, activation := ae }

/-- The source after `n` further calls of `rand()`. -/
def RandSrc.advance (g : RandSrc) (n : Nat) : RandSrc := { g with calls := g.calls + n }

/-- The binary reactions of a coupling list, pair by pair: pair `k` fuses the
edges at its two positions of the edge list current at round `k`, and its
activation energy is the `k`-th draw from `g` over `RAND_MAX`. -/
def binary_reactions (g : RandSrc) : List Edge → List (Nat × Nat) → List reaction
  | _, [] => []
  | edges, cp :: rest =>
    binary_of (g.unit (g.stream g.calls)) (edges.getD cp.1 (0, 0)) (edges.getD cp.2 (0, 0)) ::
      binary_reactions (g.advance 1) (erase_pair edges cp) rest

/-- The species `A_t` with id `i` and energy `e`. -/
def species_A (i t : Nat) (e : ℚ) : species :=
  { id := i, name := "A_" ++ toString t, constant := false, energy := e }

/-- The energy `rm_add_species` gives the species created by the `k`-th further
call of `rand()`. -/
def species_energy (energy_dist : Nat) (g : RandSrc) (k : Nat) : ℚ :=
  if energy_dist = 0 then -(g.stream (g.calls + k) : ℚ) / (g.RAND_MAX : ℚ)
  else g.unit (g.stream (g.calls + k))


/-! ## Concrete inputs -/

/-- A random source whose every draw is 16384, with `RAND_MAX = 32767`. -/
def ex_rand : RandSrc := { RAND_MAX := 32767, stream := fun _ => 16384, calls := 0 }

/-- Six pairwise different edges. -/
def ex_edges6 : List Edge := [(0, 1), (2, 3), (4, 5), (6, 7), (8, 9), (10, 11)]

/-- Three pairwise different edges. -/
def ex_edges3 : List Edge := [(0, 1), (2, 3), (4, 5)]

/-- Forty edges `(k, k+1)`. -/
def ex_edges40 : List Edge := (List.range 40).map (fun k => (k, k + 1))

/-- Ten coupling pairs, each addressing the first two edges of the current list. -/
def ex_couples10 : List (Nat × Nat) := List.replicate 10 (0, 1)

/-- The species array has `N` entries and the entry at position `k` has id `k`,
name `A_k` and a cleared constant-concentration flag. -/
def species_dense (N : Nat) (sp : List species) : Prop :=
  sp.length = N ∧ ∀ k, k < N →
    ∃ s, sp[k]? = some s ∧ s.id = k ∧ s.name = "A_" ++ toString k ∧ s.constant = false

/-! ## The mode dispatch of `main` -/

/-- Modelled from the spec: the command-line component `cl_para` of
`tools/cl_para.h`, through the four queries `main.cpp` makes: presence of a
parameter and its value as text, as `size_t` and as `double`.  What a value
query answers for an absent parameter is the parser's choice. -/
structure cl_para where
  have_param : String → Bool
  get_param : String → String
  get_param_i : String → Nat
  get_param_d : String → ℚ

/-- Modelled from the spec: the functions of `net_tools/` that `main.cpp` calls.
`read_jrnf_reaction_n` yields `none` when it reports failure; `write_fails` is
the value a writer returns, which `main.cpp` discards; the generators and
couplers draw from the random source and hand it back. -/
structure Extern where
  read_jrnf_reaction_n : String → Option (List species × List reaction)
  write_fails : String → Bool
  filter_r_network_r : List species → List reaction → String → List species × List reaction
  filter_r_network_s : List species → List reaction → String → List species × List reaction
  combine_r_networks : List species → List reaction → List species → List reaction →
    List species × List reaction
  create_erdos_renyi : RandSrc → Nat → Nat → Bool → Bool → Bool → List Edge × RandSrc
  create_barabasi_albert : RandSrc → Nat → Nat → Bool → Bool → Bool → List Edge × RandSrc
  create_watts_strogatz : RandSrc → Nat → Nat → ℚ → Bool → Bool → Bool → List Edge × RandSrc
  create_pan_sinha : RandSrc → Nat → Nat → Nat → Nat → ℚ → Bool → Bool → Bool →
    List Edge × RandSrc
  create_simple_modular : RandSrc → Nat → Nat → Nat → ℚ → Bool → Bool → Bool →
    List Edge × RandSrc
  couple_erdos_renyi : RandSrc → Nat → List Edge → Bool → Bool → Bool → Bool →
    List (Nat × Nat) × RandSrc
  couple_barabasi_albert : RandSrc → Nat → List Edge → Bool → Bool → Bool → Bool →
    List (Nat × Nat) × RandSrc
  couple_watts_strogatz : RandSrc → Nat → List Edge → ℚ → Bool → Bool → Bool → Bool →
    List (Nat × Nat) × RandSrc
  couple_pan_sinha : RandSrc → Nat → List Edge → Nat → Nat → ℚ → Bool → Bool → Bool → Bool →
    List (Nat × Nat) × RandSrc
  couple_simple_modular : RandSrc → Nat → List Edge → Nat → ℚ → Bool → Bool → Bool → Bool →
    List (Nat × Nat) × RandSrc

/-- What a mode does that is visible from outside: a diagnostic line on standard
output, a file read, the listing of a network, a call of a transform, generator
or coupler, a file write.  Progress lines are not recorded. -/
inductive Action where
  | report (msg : String)
  | read_jrnf (file : String)
  | list_network (sp : List species) (re : List reaction)
  | call (fn : String)
  | write_jrnf (file : String) (sp : List species) (re : List reaction)
  | write_sbml (file : String) (sp : List species) (re : List reaction)
deriving DecidableEq

/-- An action together with the mode whose block performed it. -/
structure Event where
  mode : String
  act : Action
deriving DecidableEq

/-- The state of a run: the events so far and the random source. -/
structure Run where
  log : List Event
  rnd : RandSrc

/-- Appends the actions `acts` of mode `mode` to the log. -/
def Run.emit (r : Run) (mode : String) (acts : List Action) : Run :=
  { r with log := r.log ++ acts.map (fun a => Event.mk mode a) }

/-- How a block of `main` ends: control falls through to the next block, `main`
returns an exit code, or the block has left defined behaviour (an out-of-range
vector access). -/
inductive Outcome where
  | next (r : Run)
  | exit (code : Nat) (r : Run)
  | undefined

/-- Sequencing of blocks: a block that fell through is followed by the next one. -/
def Outcome.andThen (o : Outcome) (f : Run → Outcome) : Outcome :=
  match o with
  | Outcome.next r => f r
  | Outcome.exit c r => Outcome.exit c r
  | Outcome.undefined => Outcome.undefined

/-- The exit code of an ended run. -/
def Outcome.code : Outcome → Option Nat
  | Outcome.exit c _ => some c
  | _ => none

/-- The events of an ended run. -/
def Outcome.events : Outcome → List Event
  | Outcome.exit _ r => r.log
  | Outcome.next r => r.log
  | Outcome.undefined => []

/-- Block `print_network` (main.cpp 193-212). -/
def mode_print_network (cl : cl_para) (ext : Extern) (r : Run) : Outcome :=
  if cl.have_param "print_network" then
    if !cl.have_param "in" then
      Outcome.exit 1 (r.emit "print_network"
        [Action.report "You need to give parameter 'in'! Could not proceed!"])
    else
      let inp := cl.get_param "in"
      match ext.read_jrnf_reaction_n inp with
      | none => Outcome.exit 1 (r.emit "print_network"
          [Action.read_jrnf inp, Action.report "Error at reading jrnf-file!"])
      | some (sp, re) => Outcome.next (r.emit "print_network"
          [Action.read_jrnf inp, Action.list_network sp re])
  else Outcome.next r

/-- Block `translate_jrnf_sbml` (main.cpp 220-239). -/
def mode_translate_jrnf_sbml (cl : cl_para) (ext : Extern) (r : Run) : Outcome :=
  if cl.have_param "translate_jrnf_sbml" then
    if !cl.have_param "in" || !cl.have_param "out" then
      Outcome.exit 1 (r.emit "translate_jrnf_sbml"
        [Action.report "You need to give parameters 'in' and 'out'! Could not proceed!"])
    else
      let inp := cl.get_param "in"
      let out := cl.get_param "out"
      match ext.read_jrnf_reaction_n inp with
      | none => Outcome.exit 1 (r.emit "translate_jrnf_sbml"
          [Action.read_jrnf inp, Action.report "Error at reading jrnf-file!"])
      | some (sp, re) => Outcome.next (r.emit "translate_jrnf_sbml"
          [Action.read_jrnf inp, Action.write_sbml out sp re])
  else Outcome.next r

/-- Block `transform_rm_species_r` (main.cpp 247-270). -/
def mode_transform_rm_species_r (cl : cl_para) (ext : Extern) (r : Run) : Outcome :=
  if cl.have_param "transform_rm_species_r" then
    if !cl.have_param "in" || !cl.have_param "out" || !cl.have_param "sp" then
      Outcome.exit 1 (r.emit "transform_rm_species_r"
        [Action.report "You need to give parameters 'in', 'out' and 'sp'! Could not proceed!"])
    else
      let inp := cl.get_param "in"
      let out := cl.get_param "out"
      let sp_name := cl.get_param "sp"
      match ext.read_jrnf_reaction_n inp with
      | none => Outcome.exit 1 (r.emit "transform_rm_species_r"
          [Action.read_jrnf inp, Action.report "Error at reading jrnf-file!"])
      | some (sp, re) =>
        let (sp_out, re_out) := ext.filter_r_network_r sp re sp_name
        Outcome.next (r.emit "transform_rm_species_r"
          [Action.read_jrnf inp, Action.call "filter_r_network_r",
            Action.write_jrnf out sp_out re_out])
  else Outcome.next r

/-- Block `transform_rm_species_s` (main.cpp 279-301). -/
def mode_transform_rm_species_s (cl : cl_para) (ext : Extern) (r : Run) : Outcome :=
  if cl.have_param "transform_rm_species_s" then
    if !cl.have_param "in" || !cl.have_param "out" || !cl.have_param "sp" then
      Outcome.exit 1 (r.emit "transform_rm_species_s"
        [Action.report "You need to give parameters 'in', 'out' and 'sp'! Could not proceed!"])
    else
      let inp := cl.get_param "in"
      let out := cl.get_param "out"
      let sp_name := cl.get_param "sp"
      match ext.read_jrnf_reaction_n inp with
      | none => Outcome.exit 1 (r.emit "transform_rm_species_s"
          [Action.read_jrnf inp, Action.report "Error at reading jrnf-file!"])
      | some (sp, re) =>
        let (sp_out, re_out) := ext.filter_r_network_s sp re sp_name
        Outcome.next (r.emit "transform_rm_species_s"
          [Action.read_jrnf inp, Action.call "filter_r_network_s",
            Action.write_jrnf out sp_out re_out])
  else Outcome.next r

/-- Block `combine_networks` (main.cpp 309-335); the second file is read only
when the first read succeeded. -/
def mode_combine_networks (cl : cl_para) (ext : Extern) (r : Run) : Outcome :=
  if cl.have_param "combine_networks" then
    if !cl.have_param "in1" || !cl.have_param "in2" || !cl.have_param "out" then
      Outcome.exit 1 (r.emit "combine_networks"
        [Action.report "You need to give parameters 'in1', 'in2' and 'out'! Could not proceed!"])
    else
      let in1 := cl.get_param "in1"
      let in2 := cl.get_param "in2"
      match ext.read_jrnf_reaction_n in1 with
      | none => Outcome.exit 1 (r.emit "combine_networks"
          [Action.read_jrnf in1, Action.report "Error at reading jrnf-file!"])
      | some (sp_1, re_1) =>
        match ext.read_jrnf_reaction_n in2 with
        | none => Outcome.exit 1 (r.emit "combine_networks"
            [Action.read_jrnf in1, Action.read_jrnf in2,
              Action.report "Error at reading jrnf-file!"])
        | some (sp_2, re_2) =>
          let (sp, re) := ext.combine_r_networks sp_1 re_1 sp_2 re_2
          let out := cl.get_param "out"
          Outcome.next (r.emit "combine_networks"
            [Action.read_jrnf in1, Action.read_jrnf in2, Action.call "combine_r_networks",
              Action.write_jrnf out sp re])
  else Outcome.next r

/-- Block `create_ER_NM` (main.cpp 345-381). -/
def mode_create_ER_NM (cl : cl_para) (ext : Extern) (r : Run) : Outcome :=
  if cl.have_param "create_ER_NM" then
    let N := cl.get_param_i "N"
    let M := cl.get_param_i "M"
    let out := if cl.have_param "out" then cl.get_param "out" else "ER_NM_network.jrnf"
    let self_loop := cl.have_param "self_loop"
    let directed := cl.have_param "directed"
    let allow_multiple := cl.have_param "allow_multiple"
    let (edges, g1) := ext.create_erdos_renyi r.rnd N M allow_multiple self_loop directed
    let (sp, re) := assemble_NM N edges
    Outcome.next ({ r with rnd := g1 }.emit "create_ER_NM"
      [Action.call "create_erdos_renyi", Action.write_jrnf out sp re])
  else Outcome.next r

/-- Block `create_ER_NM_bi_C` (main.cpp 388-464). -/
def mode_create_ER_NM_bi_C (cl : cl_para) (ext : Extern) (r : Run) : Outcome :=
  if cl.have_param "create_ER_NM_bi_C" then
    let N := cl.get_param_i "N"
    let M := cl.get_param_i "M"
    let C := cl.get_param_i "C"
    let out := if cl.have_param "out" then cl.get_param "out" else "bi_nMC_network.jrnf"
    let self_loop := cl.have_param "self_loop"
    let directed := cl.have_param "directed"
    let allow_multiple := cl.have_param "allow_multiple"
    let limit_coupling := cl.have_param "limit_coupling"
    let energy_dist := 0
    let aener_dist := 0
    let (edges, g1) := ext.create_erdos_renyi r.rnd N M allow_multiple self_loop directed
    let (couples, g2) :=
      ext.couple_erdos_renyi g1 C edges limit_coupling allow_multiple self_loop directed
    match assemble_bi_C energy_dist aener_dist N edges couples g2 with
    | none => Outcome.undefined
    | some net => Outcome.next ({ r with rnd := net.rnd }.emit "create_ER_NM_bi_C"
        [Action.call "create_erdos_renyi", Action.call "couple_erdos_renyi",
          Action.write_jrnf out net.sp net.re])
  else Outcome.next r

/-- Block `create_BA_NM` (main.cpp 472-508). -/
def mode_create_BA_NM (cl : cl_para) (ext : Extern) (r : Run) : Outcome :=
  if cl.have_param "create_BA_NM" then
    let N := cl.get_param_i "N"
    let M := cl.get_param_i "M"
    let out := if cl.have_param "out" then cl.get_param "out" else "BA_NM_network.jrnf"
    let self_loop := cl.have_param "self_loop"
    let directed := cl.have_param "directed"
    let allow_multiple := cl.have_param "allow_multiple"
    let (edges, g1) := ext.create_barabasi_albert r.rnd N M allow_multiple self_loop directed
    let (sp, re) := assemble_NM N edges
    Outcome.next ({ r with rnd := g1 }.emit "create_BA_NM"
      [Action.call "create_barabasi_albert", Action.write_jrnf out sp re])
  else Outcome.next r

/-- Block `create_BA_NM_bi_C` (main.cpp 515-593). -/
def mode_create_BA_NM_bi_C (cl : cl_para) (ext : Extern) (r : Run) : Outcome :=
  if cl.have_param "create_BA_NM_bi_C" then
    let N := cl.get_param_i "N"
    let M := cl.get_param_i "M"
    let C := cl.get_param_i "C"
    let out := if cl.have_param "out" then cl.get_param "out" else "bi_NMC_network.jrnf"
    let self_loop := cl.have_param "self_loop"
    let directed := cl.have_param "directed"
    let allow_multiple := cl.have_param "allow_multiple"
    let limit_coupling := cl.have_param "limit_coupling"
    let energy_dist := 0
    let aener_dist := 0
    let (edges, g1) := ext.create_barabasi_albert r.rnd N M allow_multiple self_loop directed
    let (couples, g2) :=
      ext.couple_barabasi_albert g1 C edges limit_coupling allow_multiple self_loop directed
    match assemble_bi_C energy_dist aener_dist N edges couples g2 with
    | none => Outcome.undefined
    | some net => Outcome.next ({ r with rnd := net.rnd }.emit "create_BA_NM_bi_C"
        [Action.call "create_barabasi_albert", Action.call "couple_barabasi_albert",
          Action.write_jrnf out net.sp net.re])
  else Outcome.next r

/-- Block `create_WS_NMalpha` (main.cpp 600-637). -/
def mode_create_WS_NMalpha (cl : cl_para) (ext : Extern) (r : Run) : Outcome :=
  if cl.have_param "create_WS_NMalpha" then
    let N := cl.get_param_i "N"
    let M := cl.get_param_i "M"
    let alpha := cl.get_param_d "alpha"
    let out := if cl.have_param "out" then cl.get_param "out" else "WS_NMalpha_network.jrnf"
    let self_loop := cl.have_param "self_loop"
    let directed := cl.have_param "directed"
    let allow_multiple := cl.have_param "allow_multiple"
    let (edges, g1) :=
      ext.create_watts_strogatz r.rnd N M alpha allow_multiple self_loop directed
    let (sp, re) := assemble_NM N edges
    Outcome.next ({ r with rnd := g1 }.emit "create_WS_NMalpha"
      [Action.call "create_watts_strogatz", Action.write_jrnf out sp re])
  else Outcome.next r

/-- Block `create_WS_NMalpha_bi_C` (main.cpp 644-723). -/
def mode_create_WS_NMalpha_bi_C (cl : cl_para) (ext : Extern) (r : Run) : Outcome :=
  if cl.have_param "create_WS_NMalpha_bi_C" then
    let N := cl.get_param_i "N"
    let M := cl.get_param_i "M"
    let alpha := cl.get_param_d "alpha"
    let C := cl.get_param_i "C"
    let out := if cl.have_param "out" then cl.get_param "out" else "bi_NMalphaC_network.jrnf"
    let self_loop := cl.have_param "self_loop"
    let directed := cl.have_param "directed"
    let allow_multiple := cl.have_param "allow_multiple"
    let limit_coupling := cl.have_param "limit_coupling"
    let energy_dist := 0
    let aener_dist := 0
    let (edges, g1) :=
      ext.create_watts_strogatz r.rnd N M alpha allow_multiple self_loop directed
    let (couples, g2) := ext.couple_watts_strogatz g1 C edges alpha limit_coupling
      allow_multiple self_loop directed
    match assemble_bi_C energy_dist aener_dist N edges couples g2 with
    | none => Outcome.undefined
    | some net => Outcome.next ({ r with rnd := net.rnd }.emit "create_WS_NMalpha_bi_C"
        [Action.call "create_watts_strogatz", Action.call "couple_watts_strogatz",
          Action.write_jrnf out net.sp net.re])
  else Outcome.next r

/-- Block `create_PS_NMhmr` (main.cpp 730-770). -/
def mode_create_PS_NMhmr (cl : cl_para) (ext : Extern) (r : Run) : Outcome :=
  if cl.have_param "create_PS_NMhmr" then
    let N := cl.get_param_i "N"
    let M := cl.get_param_i "M"
    let m := cl.get_param_i "m"
    let h := cl.get_param_i "h"
    let rr := cl.get_param_d "r"
    let out := if cl.have_param "out" then cl.get_param "out" else "PS_NMhmr_network.jrnf"
    let self_loop := cl.have_param "self_loop"
    let directed := cl.have_param "directed"
    let allow_multiple := cl.have_param "allow_multiple"
    let (edges, g1) := ext.create_pan_sinha r.rnd N M h m rr allow_multiple self_loop directed
    let (sp, re) := assemble_NM N edges
    Outcome.next ({ r with rnd := g1 }.emit "create_PS_NMhmr"
      [Action.call "create_pan_sinha", Action.write_jrnf out sp re])
  else Outcome.next r

/-- Block `create_PS_NMhmr_bi_C` (main.cpp 778-854). -/
def mode_create_PS_NMhmr_bi_C (cl : cl_para) (ext : Extern) (r : Run) : Outcome :=
  if cl.have_param "create_PS_NMhmr_bi_C" then
    let N := cl.get_param_i "N"
    let M := cl.get_param_i "M"
    let m := cl.get_param_i "m"
    let h := cl.get_param_i "h"
    let rr := cl.get_param_d "r"
    let C := cl.get_param_i "C"
    let out :=
      if cl.have_param "out" then cl.get_param "out" else "PS_NMhmr_bi_C_network.jrnf"
    let self_loop := cl.have_param "self_loop"
    let directed := cl.have_param "directed"
    let allow_multiple := cl.have_param "allow_multiple"
    let limit_coupling := cl.have_param "limit_coupling"
    let energy_dist := 0
    let aener_dist := 0
    let (edges, g1) := ext.create_pan_sinha r.rnd N M h m rr allow_multiple self_loop directed
    let (couples, g2) := ext.couple_pan_sinha g1 C edges h m rr limit_coupling
      allow_multiple self_loop directed
    match assemble_bi_C energy_dist aener_dist N edges couples g2 with
    | none => Outcome.undefined
    | some net => Outcome.next ({ r with rnd := net.rnd }.emit "create_PS_NMhmr_bi_C"
        [Action.call "create_pan_sinha", Action.call "couple_pan_sinha",
          Action.write_jrnf out net.sp net.re])
  else Outcome.next r

/-- Block `create_SM_NMmr_bi_C` (main.cpp 862-928); the selectors are the
literal `0` here. -/
def mode_create_SM_NMmr_bi_C (cl : cl_para) (ext : Extern) (r : Run) : Outcome :=
  if cl.have_param "create_SM_NMmr_bi_C" then
    let N := cl.get_param_i "N"
    let M := cl.get_param_i "M"
    let m := cl.get_param_i "m"
    let rr := cl.get_param_d "r"
    let C := cl.get_param_i "C"
    let out :=
      if cl.have_param "out" then cl.get_param "out" else "SM_NMmr_bi_C_network.jrnf"
    let self_loop := cl.have_param "self_loop"
    let directed := cl.have_param "directed"
    let allow_multiple := cl.have_param "allow_multiple"
    let limit_coupling := cl.have_param "limit_coupling"
    let (edges, g1) :=
      ext.create_simple_modular r.rnd N M m rr allow_multiple self_loop directed
    let (couples, g2) := ext.couple_simple_modular g1 C edges m rr limit_coupling
      allow_multiple self_loop directed
    match assemble_bi_C 0 0 N edges couples g2 with
    | none => Outcome.undefined
    | some net => Outcome.next ({ r with rnd := net.rnd }.emit "create_SM_NMmr_bi_C"
        [Action.call "create_simple_modular", Action.call "couple_simple_modular",
          Action.write_jrnf out net.sp net.re])
  else Outcome.next r

/-- Block `help` / `info` (main.cpp 935-976): prints the usage screen. -/
def mode_help (cl : cl_para) (r : Run) : Outcome :=
  if cl.have_param "help" || cl.have_param "info" then
    Outcome.next (r.emit "help" [Action.report "          Network tools"])
  else Outcome.next r

/-- The function `main` (main.cpp 181-980): the mode blocks in source order, then
`return 0`.  `g` is the random source as seeded by `srand(time(0))`. -/
def main (cl : cl_para) (ext : Extern) (g : RandSrc) : Outcome :=
  (((((((((((((((mode_print_network cl ext { log := [], rnd := g }).andThen
    (mode_translate_jrnf_sbml cl ext)).andThen
    (mode_transform_rm_species_r cl ext)).andThen
    (mode_transform_rm_species_s cl ext)).andThen
    (mode_combine_networks cl ext)).andThen
    (mode_create_ER_NM cl ext)).andThen
    (mode_create_ER_NM_bi_C cl ext)).andThen
    (mode_create_BA_NM cl ext)).andThen
    (mode_create_BA_NM_bi_C cl ext)).andThen
    (mode_create_WS_NMalpha cl ext)).andThen
    (mode_create_WS_NMalpha_bi_C cl ext)).andThen
    (mode_create_PS_NMhmr cl ext)).andThen
    (mode_create_PS_NMhmr_bi_C cl ext)).andThen
    (mode_create_SM_NMmr_bi_C cl ext)).andThen
    (mode_help cl)).andThen (fun r => Outcome.exit 0 r)

/-- A stand-in for the functions of `net_tools/`: every read succeeds with the
empty network, transforms return their input, generators and couplers return
empty lists and leave the random source alone. -/
def ex_extern : Extern where
  read_jrnf_reaction_n := fun _ => some ([], [])
  write_fails := fun _ => false
  filter_r_network_r := fun sp re _ => (sp, re)
  filter_r_network_s := fun sp re _ => (sp, re)
  combine_r_networks := fun sp re _ _ => (sp, re)
  create_erdos_renyi := fun g _ _ _ _ _ => ([], g)
  create_barabasi_albert := fun g _ _ _ _ _ => ([], g)
  create_watts_strogatz := fun g _ _ _ _ _ _ => ([], g)
  create_pan_sinha := fun g _ _ _ _ _ _ _ _ => ([], g)
  create_simple_modular := fun g _ _ _ _ _ _ _ => ([], g)
  couple_erdos_renyi := fun g _ _ _ _ _ _ => ([], g)
  couple_barabasi_albert := fun g _ _ _ _ _ _ => ([], g)
  couple_watts_strogatz := fun g _ _ _ _ _ _ _ => ([], g)
  couple_pan_sinha := fun g _ _ _ _ _ _ _ _ _ => ([], g)
  couple_simple_modular := fun g _ _ _ _ _ _ _ _ => ([], g)

/-- A command line on which only the parameters of `present` are given; value
queries answer the empty text and zero. -/
def ex_cl (present : List String) : cl_para where
  have_param := fun p => present.contains p
  get_param := fun _ => ""
  get_param_i := fun _ => 0
  get_param_d := fun _ => 0

/-- The stand-in `ex_extern` with every read failing. -/
def ex_extern_unreadable : Extern := { ex_extern with read_jrnf_reaction_n := fun _ => none }

/-- The file modes of the CLI table with their required parameters. -/
def file_modes : List (String × List String) :=
  [("print_network", ["in"]),
   ("translate_jrnf_sbml", ["in", "out"]),
   ("transform_rm_species_r", ["in", "out", "sp"]),
   ("transform_rm_species_s", ["in", "out", "sp"]),
   ("combine_networks", ["in1", "in2", "out"])]

/-- The diagnostic a file mode prints when one of its parameters is absent. -/
def missing_report (mode : String) : String :=
  if mode = "print_network" then "You need to give parameter 'in'! Could not proceed!"
  else if mode = "translate_jrnf_sbml" then
    "You need to give parameters 'in' and 'out'! Could not proceed!"
  else if mode = "combine_networks" then
    "You need to give parameters 'in1', 'in2' and 'out'! Could not proceed!"
  else "You need to give parameters 'in', 'out' and 'sp'! Could not proceed!"

/-- No event of the run belongs to mode `m`. -/
def Run.clean (m : String) (r : Run) : Prop := ∀ e ∈ r.log, e.mode ≠ m

/-- The program has ended with exit code 1, mode `m` has done nothing but report
`msg`, and the last line reported is that diagnostic of `m`, or the diagnostic
of another mode, which ended the program before `m` was reached. -/
def Outcome.rejected (m msg : String) (o : Outcome) : Prop :=
  ∃ run, o = Outcome.exit 1 run ∧
    (∀ e ∈ run.log, e.mode = m → e.act = Action.report msg) ∧
    (run.log.getLast? = some (Event.mk m (Action.report msg)) ∨
      ∃ e s, run.log.getLast? = some e ∧ e.mode ≠ m ∧ e.act = Action.report s)

/-- A block tagged `t` either falls through or ends the program with code 1 on
a diagnostic, and logs only events of its own. -/
def block_ok (t : String) (b : Run → Outcome) : Prop :=
  ∀ r, (∃ acts, b r = Outcome.next (r.emit t acts)) ∨
    (∃ acts s, b r = Outcome.exit 1 (r.emit t (acts ++ [Action.report s])))

/-- The state before mode `m` is reached: still running with no event of `m`, or
already rejected. -/
def Outcome.before (m msg : String) (o : Outcome) : Prop :=
  (∃ r, o = Outcome.next r ∧ r.clean m) ∨ o.rejected m msg

/-! ## The five copies of the coupled assembler -/

/-- The assembler as written in block `create_ER_NM_bi_C` (main.cpp 430-463), with
the block's local selectors `energy_dist = 0` and `aener_dist = 0`. -/
def assemble_ER_NM_bi_C (N : Nat) (edges : List Edge) (couples : List (Nat × Nat))
    (g : RandSrc) : Option Assembled :=
  let energy_dist := 0
  let aener_dist := 0
  let (sp, g1) := species_loop energy_dist N 0 [] g
  match couple_loop aener_dist couples edges [] g1 with
  | none => none
  | some (edges1, re, g2) => some { sp := sp, re := unary_loop aener_dist edges1 re, rnd := g2 }

/-- The assembler as written in block `create_BA_NM_bi_C` (main.cpp 560-592). -/
def assemble_BA_NM_bi_C (N : Nat) (edges : List Edge) (couples : List (Nat × Nat))
    (g : RandSrc) : Option Assembled :=
  let energy_dist := 0
  let aener_dist := 0
  let (sp, g1) := species_loop energy_dist N 0 [] g
  match couple_loop aener_dist couples edges [] g1 with
  | none => none
  | some (edges1, re, g2) => some { sp := sp, re := unary_loop aener_dist edges1 re, rnd := g2 }

/-- The assembler as written in block `create_WS_NMalpha_bi_C` (main.cpp 689-722). -/
def assemble_WS_NMalpha_bi_C (N : Nat) (edges : List Edge) (couples : List (Nat × Nat))
    (g : RandSrc) : Option Assembled :=
  let energy_dist := 0
  let aener_dist := 0
  let (sp, g1) := species_loop energy_dist N 0 [] g
  match couple_loop aener_dist couples edges [] g1 with
  | none => none
  | some (edges1, re, g2) => some { sp := sp, re := unary_loop aener_dist edges1 re, rnd := g2 }

/-- The assembler as written in block `create_PS_NMhmr_bi_C` (main.cpp 821-853). -/
def assemble_PS_NMhmr_bi_C (N : Nat) (edges : List Edge) (couples : List (Nat × Nat))
    (g : RandSrc) : Option Assembled :=
  let energy_dist := 0
  let aener_dist := 0
  let (sp, g1) := species_loop energy_dist N 0 [] g
  match couple_loop aener_dist couples edges [] g1 with
  | none => none
  | some (edges1, re, g2) => some { sp := sp, re := unary_loop aener_dist edges1 re, rnd := g2 }

/-- The loop over the remaining edges as written in block `create_SM_NMmr_bi_C`
(main.cpp 919-925): `rm_1to1rev(re, a, b, 0)`, the literal `0` arriving in the
parameter `double ae`. -/
def unary_loop_SM : List Edge → List reaction → List reaction
  | [], re => re
  | e :: rest, re => unary_loop_SM rest (rm_1to1rev re e.1 e.2 0)

/-- The assembler as written in block `create_SM_NMmr_bi_C` (main.cpp 895-927):
the literal `0` stands where the other copies pass `energy_dist` and `aener_dist`. -/
def assemble_SM_NMmr_bi_C (N : Nat) (edges : List Edge) (couples : List (Nat × Nat))
    (g : RandSrc) : Option Assembled :=
  let (sp, g1) := species_loop 0 N 0 [] g
  match couple_loop 0 couples edges [] g1 with
  | none => none
  | some (edges1, re, g2) => some { sp := sp, re := unary_loop_SM edges1 re, rnd := g2 }

/-! ## Ordered coupling lists and links -/

/-- Every pair `(i, j)` satisfies `i < j < length` of the edge list current when
the pair is processed. -/
def couples_ordered : List Edge → List (Nat × Nat) → Prop
  | _, [] => True
  | edges, cp :: rest =>
    cp.1 < cp.2 ∧ cp.2 < edges.length ∧ couples_ordered (erase_pair edges cp) rest

/-- Decision procedure for `couples_ordered`. -/
instance couples_ordered_dec : ∀ (edges : List Edge) (couples : List (Nat × Nat)),
    Decidable (couples_ordered edges couples)
  | _, [] => isTrue trivial
  | edges, cp :: rest =>
    have : Decidable (couples_ordered (erase_pair edges cp) rest) :=
      couples_ordered_dec (erase_pair edges cp) rest
    inferInstanceAs (Decidable (cp.1 < cp.2 ∧ cp.2 < edges.length ∧
      couples_ordered (erase_pair edges cp) rest))

/-- The links of a reaction: the `k`-th educt paired with the `k`-th product, so
`a + b <--> c + d` has the links `(a, c)`, `(b, d)` and `a <--> b` the link `(a, b)`. -/
def links (r : reaction) : List Edge := r.educts.zip r.products

/-- The edges the coupling rounds fuse, two per pair, in the order of the rounds:
the edges at the two positions of the list current at each round. -/
def fused_edges : List Edge → List (Nat × Nat) → List Edge
  | _, [] => []
  | edges, cp :: rest =>
    edges.getD cp.1 (0, 0) :: edges.getD cp.2 (0, 0) :: fused_edges (erase_pair edges cp) rest

/-- Four pairwise different edges. -/
def ex_edges4 : List Edge := [(0, 1), (2, 3), (4, 5), (6, 7)]

/-! ## Notions for the dispatch as a whole -/

/-- The files a file mode reads: `in1` and `in2` for `combine_networks`, `in` for
the other file modes. -/
def input_files (cl : cl_para) (mode : String) : List String :=
  if mode = "combine_networks" then [cl.get_param "in1", cl.get_param "in2"]
  else [cl.get_param "in"]

/-- An action that is a file read or a diagnostic: no listing, no call of a
transform, generator or coupler, and no write. -/
def Action.no_work (a : Action) : Prop :=
  (∃ f, a = Action.read_jrnf f) ∨ (∃ s, a = Action.report s)

/-- The program has ended with exit code 1 and every action of mode `m` is a
read or a diagnostic. -/
def Outcome.stopped (m : String) (o : Outcome) : Prop :=
  ∃ run, o = Outcome.exit 1 run ∧ ∀ e ∈ run.log, e.mode = m → e.act.no_work

/-- The state before mode `m` is reached: still running with no event of `m`, or
already stopped. -/
def Outcome.ahead (m : String) (o : Outcome) : Prop :=
  (∃ r, o = Outcome.next r ∧ r.clean m) ∨ o.stopped m

/-- The modes in the order of their blocks in `main`; `help` stands for the last
block, which the flags `help` and `info` both fire. -/
def dispatch_order : List String :=
  ["print_network", "translate_jrnf_sbml", "transform_rm_species_r",
   "transform_rm_species_s", "combine_networks", "create_ER_NM", "create_ER_NM_bi_C",
   "create_BA_NM", "create_BA_NM_bi_C", "create_WS_NMalpha", "create_WS_NMalpha_bi_C",
   "create_PS_NMhmr", "create_PS_NMhmr_bi_C", "create_SM_NMmr_bi_C", "help"]

/-- The flag of mode `m` is present on the command line. -/
def fired (cl : cl_para) (m : String) : Bool :=
  if m = "help" then cl.have_param "help" || cl.have_param "info" else cl.have_param m

/-- The position of a mode in the dispatch order. -/
def mode_index (m : String) : Nat := dispatch_order.indexOf m

/-- The events of a log follow the dispatch order of their modes. -/
def in_order (log : List Event) : Prop :=
  log.Pairwise (fun e1 e2 => mode_index e1.mode ≤ mode_index e2.mode)

/-- The line `s` is one of the two diagnostics of mode `t`: the read error or the
missing-parameter message. -/
def is_diagnostic (t s : String) : Prop :=
  s = "Error at reading jrnf-file!" ∨ s = missing_report t

/-- What a block tagged `t` does: nothing when its flag is absent; when the flag
is present it logs at least one event of its own and falls through, or (only if
`may_exit`) ends the program with code 1 on one of its diagnostics, or leaves
defined behaviour. -/
def block_spec (cl : cl_para) (t : String) (may_exit : Prop) (b : Run → Outcome) : Prop :=
  ∀ r, (fired cl t = false → b r = Outcome.next r) ∧
    (fired cl t = true →
      (∃ r1 acts, b r = Outcome.next r1 ∧ acts ≠ [] ∧
        r1.log = r.log ++ acts.map (Event.mk t)) ∨
      (may_exit ∧ ∃ r1 acts s, b r = Outcome.exit 1 r1 ∧ is_diagnostic t s ∧
        r1.log = r.log ++ (acts ++ [Action.report s]).map (Event.mk t)) ∨
      b r = Outcome.undefined)

/-- The state after the first `k` blocks.  Still running: every event belongs to
a fired mode among the first `k`, the events are in dispatch order and every
fired mode among the first `k` has an event.  Ended: the exit code is 1, the
last event is a diagnostic of a file mode, no event belongs to a later mode and
every fired mode up to that one has an event. -/
def Outcome.dispatched (cl : cl_para) (k : Nat) (o : Outcome) : Prop :=
  match o with
  | Outcome.next r =>
    (∀ e ∈ r.log, mode_index e.mode < k ∧ e.mode ∈ dispatch_order ∧ fired cl e.mode = true) ∧
    in_order r.log ∧
    (∀ m ∈ dispatch_order, mode_index m < k → fired cl m = true → ∃ e ∈ r.log, e.mode = m)
  | Outcome.exit c r =>
    c = 1 ∧ (∀ e ∈ r.log, e.mode ∈ dispatch_order ∧ fired cl e.mode = true) ∧
    in_order r.log ∧
    ∃ e s, r.log.getLast? = some e ∧ e.act = Action.report s ∧ is_diagnostic e.mode s ∧
      mode_index e.mode < 5 ∧ (∀ e1 ∈ r.log, mode_index e1.mode ≤ mode_index e.mode) ∧
      (∀ m ∈ dispatch_order, mode_index m ≤ mode_index e.mode → fired cl m = true →
        ∃ e1 ∈ r.log, e1.mode = m)
  | Outcome.undefined => True

/-- The contract of the couplers that keeps the coupled assemblers inside their
edge vector: in each of the five families, the coupling list the coupler
returns for the generator's edge list is valid on that list (`couples_valid`). -/
def Extern.couplers_valid (ext : Extern) : Prop :=
  (∀ (g : RandSrc) (N M C : Nat) (lc am sl d : Bool),
    couples_valid (ext.create_erdos_renyi g N M am sl d).1
      (ext.couple_erdos_renyi (ext.create_erdos_renyi g N M am sl d).2 C
        (ext.create_erdos_renyi g N M am sl d).1 lc am sl d).1) ∧
  (∀ (g : RandSrc) (N M C : Nat) (lc am sl d : Bool),
    couples_valid (ext.create_barabasi_albert g N M am sl d).1
      (ext.couple_barabasi_albert (ext.create_barabasi_albert g N M am sl d).2 C
        (ext.create_barabasi_albert g N M am sl d).1 lc am sl d).1) ∧
  (∀ (g : RandSrc) (N M C : Nat) (alpha : ℚ) (lc am sl d : Bool),
    couples_valid (ext.create_watts_strogatz g N M alpha am sl d).1
      (ext.couple_watts_strogatz (ext.create_watts_strogatz g N M alpha am sl d).2 C
        (ext.create_watts_strogatz g N M alpha am sl d).1 alpha lc am sl d).1) ∧
  (∀ (g : RandSrc) (N M h m C : Nat) (rr : ℚ) (lc am sl d : Bool),
    couples_valid (ext.create_pan_sinha g N M h m rr am sl d).1
      (ext.couple_pan_sinha (ext.create_pan_sinha g N M h m rr am sl d).2 C
        (ext.create_pan_sinha g N M h m rr am sl d).1 h m rr lc am sl d).1) ∧
  (∀ (g : RandSrc) (N M m C : Nat) (rr : ℚ) (lc am sl d : Bool),
    couples_valid (ext.create_simple_modular g N M m rr am sl d).1
      (ext.couple_simple_modular (ext.create_simple_modular g N M m rr am sl d).2 C
        (ext.create_simple_modular g N M m rr am sl d).1 m rr lc am sl d).1)

/-- The stand-in `ex_extern` with an Erdős–Rényi generator that returns six edges
and an Erdős–Rényi coupler that returns the pair `(0, 1)`. -/
def ex_extern_coupling : Extern :=
  { ex_extern with
    create_erdos_renyi := fun g _ _ _ _ _ => (ex_edges6, g)
    couple_erdos_renyi := fun g _ _ _ _ _ _ => ([(0, 1)], g) }

/-! ## The loops in closed form -/

theorem vec_erase_of_lt {α : Type} (v : List α) (i : Nat) (h : i < v.length) :
    vec_erase v i = some (v.eraseIdx i) := by
  simp [vec_erase, h]

theorem rm_1to1rev_eq (re : List reaction) (a b : Nat) (ae : ℚ) :
    rm_1to1rev re a b ae = re ++ [unary_of ae (a, b)] := by
  simp [rm_1to1rev, unary_of, reaction.new, reaction.set_activation, reaction.set_reversible,
    reaction.add_educt, reaction.add_product]

theorem rm_2to2rev_eq (g : RandSrc) (re : List reaction) (a b c d ae_dist : Nat) :
    rm_2to2rev g re a b c d ae_dist =
      (re ++ [binary_of (g.unit (g.stream g.calls)) (a, c) (b, d)], g.advance 1) := by
  simp [rm_2to2rev, binary_of, reaction.new, reaction.set_activation, reaction.set_reversible,
    reaction.add_educt, reaction.add_product, RandSrc.rand, RandSrc.advance]

theorem couple_step_eq (ad : Nat) (edges : List Edge) (re : List reaction) (g : RandSrc)
    (cp : Nat × Nat) (h1 : cp.1 < edges.length) (h2 : cp.2 < edges.length)
    (h3 : cp.1 < (edges.eraseIdx cp.2).length) :
    couple_step ad edges re g cp =
      some (erase_pair edges cp,
        re ++ [binary_of (g.unit (g.stream g.calls)) (edges.getD cp.1 (0, 0))
          (edges.getD cp.2 (0, 0))], g.advance 1) := by
  simp [couple_step, rm_2to2rev_eq, List.getElem?_eq_getElem h1, List.getElem?_eq_getElem h2,
    vec_erase_of_lt _ _ h2, vec_erase_of_lt _ _ h3, erase_pair, List.getD_eq_getElem _ _ h1,
    List.getD_eq_getElem _ _ h2]

theorem couple_loop_eq (ad : Nat) (couples : List (Nat × Nat)) :
    ∀ (edges : List Edge) (re : List reaction) (g : RandSrc), couples_valid edges couples →
      couple_loop ad couples edges re g =
        some (edges_after edges couples, re ++ binary_reactions g edges couples,
          g.advance couples.length) := by
  induction couples with
  | nil =>
    intro edges re g _
    simp [couple_loop, edges_after, binary_reactions, RandSrc.advance]
  | cons cp rest ih =>
    intro edges re g h
    obtain ⟨_, h1, h2, h3, h4⟩ := h
    simp only [couple_loop, couple_step_eq ad edges re g cp h1 h2 h3]
    rw [ih _ _ _ h4]
    simp [edges_after, binary_reactions, RandSrc.advance, Nat.add_comm, Nat.add_left_comm]

theorem unary_loop_eq (ad : Nat) (edges : List Edge) :
    ∀ re : List reaction, unary_loop ad edges re = re ++ edges.map (unary_of (ad : ℚ)) := by
  induction edges with
  | nil => intro re; simp [unary_loop]
  | cons e rest ih => intro re; simp [unary_loop, ih, rm_1to1rev_eq]

theorem rm_add_species_eq (g : RandSrc) (sp : List species) (t ed : Nat) :
    rm_add_species g sp t ed = (sp ++ [species_A sp.length t (species_energy ed g 0)],
      g.advance 1) := by
  by_cases h : ed = 0 <;>
    simp [rm_add_species, species_A, species_energy, species.set_energy, RandSrc.rand,
      RandSrc.advance, RandSrc.unit, h]

theorem rm_add_species_ne_eq (sp : List species) (t : Nat) :
    rm_add_species_ne sp t = sp ++ [species_A sp.length t 0] := by
  simp [rm_add_species_ne, species_A, species.set_energy]

theorem species_loop_ne_eq (n : Nat) : ∀ (t : Nat) (sp : List species),
    species_loop_ne n t sp =
      sp ++ (List.range n).map (fun k => species_A (sp.length + k) (t + k) 0) := by
  induction n with
  | zero => intro t sp; simp [species_loop_ne]
  | succ n ih =>
    intro t sp
    simp only [species_loop_ne, ih, rm_add_species_ne_eq, List.range_succ_eq_map, List.map_cons,
      List.map_map, List.append_assoc, List.length_append, List.length_singleton]
    simp [Function.comp_def, Nat.add_assoc, Nat.add_comm 1]

theorem species_loop_eq (ed : Nat) (n : Nat) : ∀ (t : Nat) (sp : List species) (g : RandSrc),
    species_loop ed n t sp g =
      (sp ++ (List.range n).map
        (fun k => species_A (sp.length + k) (t + k) (species_energy ed g k)), g.advance n) := by
  induction n with
  | zero => intro t sp g; simp [species_loop, RandSrc.advance]
  | succ n ih =>
    intro t sp g
    simp only [species_loop, ih, rm_add_species_eq, List.range_succ_eq_map, List.map_cons,
      List.map_map, List.append_assoc, List.length_append, List.length_singleton]
    simp [Function.comp_def, Nat.add_assoc, Nat.add_comm 1, RandSrc.advance, species_energy,
      RandSrc.unit]

/-- The coupled assembler in closed form, for a valid coupling list. -/
theorem assemble_bi_C_eq (ed ad N : Nat) (edges : List Edge) (couples : List (Nat × Nat))
    (g : RandSrc) (h : couples_valid edges couples) :
    assemble_bi_C ed ad N edges couples g =
      some { sp := (List.range N).map (fun k => species_A k k (species_energy ed g k)),
             re := binary_reactions (g.advance N) edges couples ++
               (edges_after edges couples).map (unary_of (ad : ℚ)),
             rnd := (g.advance N).advance couples.length } := by
  simp [assemble_bi_C, species_loop_eq, couple_loop_eq ad couples edges [] _ h, unary_loop_eq]

theorem binary_reactions_length (couples : List (Nat × Nat)) :
    ∀ (g : RandSrc) (edges : List Edge), (binary_reactions g edges couples).length =
      couples.length := by
  induction couples with
  | nil => intro g edges; rfl
  | cons cp rest ih => intro g edges; simp [binary_reactions, ih]

theorem erase_pair_length (edges : List Edge) (cp : Nat × Nat) (h2 : cp.2 < edges.length)
    (h3 : cp.1 < (edges.eraseIdx cp.2).length) :
    (erase_pair edges cp).length + 2 = edges.length := by
  have e2 := List.length_eraseIdx_of_lt h2
  have e1 := List.length_eraseIdx_of_lt h3
  simp only [erase_pair]
  omega

theorem edges_after_length (couples : List (Nat × Nat)) : ∀ edges : List Edge,
    couples_valid edges couples →
      (edges_after edges couples).length + 2 * couples.length = edges.length := by
  induction couples with
  | nil => intro edges _; simp [edges_after]
  | cons cp rest ih =>
    intro edges h
    obtain ⟨_, _, h2, h3, h4⟩ := h
    have e := erase_pair_length edges cp h2 h3
    have r := ih _ h4
    simp only [edges_after, List.foldl_cons, List.length_cons] at r ⊢
    omega

theorem edges_after_subset (couples : List (Nat × Nat)) : ∀ edges : List Edge,
    edges_after edges couples ⊆ edges := by
  induction couples with
  | nil => intro edges; simp [edges_after]
  | cons cp rest ih =>
    intro edges e he
    have := ih (erase_pair edges cp) he
    exact List.eraseIdx_subset _ _ (List.eraseIdx_subset _ _ this)

/-- Pair number `k` of a valid coupling list reads two edges of the list current
at round `k`, and the `k`-th binary reaction is their fusion. -/
theorem binary_reactions_getElem? (couples : List (Nat × Nat)) :
    ∀ (g : RandSrc) (edges : List Edge) (k : Nat) (hk : k < couples.length),
      couples_valid edges couples →
      ∃ e1 e2, (edges_at edges couples k)[couples[k].1]? = some e1 ∧
        (edges_at edges couples k)[couples[k].2]? = some e2 ∧
        (binary_reactions g edges couples)[k]? =
          some (binary_of (g.unit (g.stream (g.calls + k))) e1 e2) := by
  induction couples with
  | nil => intro g edges k hk; simp at hk
  | cons cp rest ih =>
    intro g edges k hk h
    obtain ⟨_, h1, h2, _, h4⟩ := h
    cases k with
    | zero =>
      refine ⟨edges[cp.1], edges[cp.2], ?_, ?_, ?_⟩
      · simp [edges_at, edges_after, List.getElem?_eq_getElem h1]
      · simp [edges_at, edges_after, List.getElem?_eq_getElem h2]
      · simp [binary_reactions, List.getElem?_eq_getElem h1, List.getElem?_eq_getElem h2]
    | succ k =>
      have hk1 : k < rest.length := by simpa using hk
      obtain ⟨e1, e2, a1, a2, a3⟩ := ih (g.advance 1) (erase_pair edges cp) k hk1 h4
      refine ⟨e1, e2, ?_, ?_, ?_⟩
      · simpa [edges_at, edges_after] using a1
      · simpa [edges_at, edges_after] using a2
      · simpa [binary_reactions, RandSrc.advance, RandSrc.unit, Nat.add_assoc,
          Nat.add_comm 1] using a3

theorem binary_of_shape (ae : ℚ) (e1 e2 : Edge) :
    is_binary (binary_of ae e1 e2) = true ∧ is_unary (binary_of ae e1 e2) = false := by
  simp [is_binary, is_unary, binary_of]

theorem unary_of_shape (ae : ℚ) (e : Edge) :
    is_unary (unary_of ae e) = true ∧ is_binary (unary_of ae e) = false := by
  simp [is_binary, is_unary, unary_of]

theorem binary_reactions_shape (couples : List (Nat × Nat)) :
    ∀ (g : RandSrc) (edges : List Edge), ∀ r ∈ binary_reactions g edges couples,
      is_binary r = true ∧ is_unary r = false := by
  induction couples with
  | nil => intro g edges r hr; simp [binary_reactions] at hr
  | cons cp rest ih =>
    intro g edges r hr
    simp only [binary_reactions, List.mem_cons] at hr
    rcases hr with rfl | hr
    · exact binary_of_shape _ _ _
    · exact ih _ _ r hr

theorem species_dense_range (N : Nat) (en : Nat → ℚ) :
    species_dense N ((List.range N).map (fun k => species_A k k (en k))) := by
  refine ⟨by simp, ?_⟩
  intro k hk
  refine ⟨species_A k k (en k), ?_, rfl, rfl, rfl⟩
  simp [List.getElem?_map, List.getElem?_range hk]

theorem species_loop_ne_zero (N : Nat) :
    species_loop_ne N 0 [] = (List.range N).map (fun k => species_A k k 0) := by
  simp [species_loop_ne_eq]

theorem species_loop_zero (ed N : Nat) (g : RandSrc) :
    (species_loop ed N 0 [] g).1 =
      (List.range N).map (fun k => species_A k k (species_energy ed g k)) := by
  simp [species_loop_eq]

/-- The species of the coupled assembler are those of its species loop, whenever
the coupling loop is defined. -/
theorem assemble_bi_C_sp (ed ad N : Nat) (edges : List Edge) (couples : List (Nat × Nat))
    (g : RandSrc) (net : Assembled) (h : assemble_bi_C ed ad N edges couples g = some net) :
    net.sp = (species_loop ed N 0 [] g).1 := by
  unfold assemble_bi_C at h
  cases hc : couple_loop ad couples edges [] (species_loop ed N 0 [] g).2 with
  | none => simp [hc] at h
  | some v =>
    simp only [hc] at h
    cases h
    rfl

/-- Every binary reaction of a valid coupling list fuses two edges of the list. -/
theorem binary_reactions_mem (couples : List (Nat × Nat)) (g : RandSrc) (edges : List Edge)
    (h : couples_valid edges couples) :
    ∀ r ∈ binary_reactions g edges couples,
      ∃ ae e1 e2, e1 ∈ edges ∧ e2 ∈ edges ∧ r = binary_of ae e1 e2 := by
  intro r hr
  obtain ⟨k, hk⟩ := List.mem_iff_getElem?.1 hr
  have hlt : k < couples.length := by
    have := (List.getElem?_eq_some.1 hk).1
    rwa [binary_reactions_length] at this
  obtain ⟨e1, e2, a1, a2, a3⟩ := binary_reactions_getElem? couples g edges k hlt h
  rw [hk] at a3
  refine ⟨_, e1, e2, ?_, ?_, Option.some.inj a3⟩
  · exact edges_after_subset _ _ (List.getElem?_mem a1)
  · exact edges_after_subset _ _ (List.getElem?_mem a2)

theorem unary_fold_eq (edges : List Edge) : ∀ re : List reaction,
    edges.foldl (fun re e => rm_1to1rev re e.1 e.2 0) re = re ++ edges.map (unary_of 0) := by
  induction edges with
  | nil => intro re; simp
  | cons e rest ih =>
    intro re
    rw [List.foldl_cons, ih, rm_1to1rev_eq]
    simp

theorem unary_of_injective (ae : ℚ) : Function.Injective (unary_of ae) := by
  intro e1 e2 h
  simp only [unary_of, reaction.mk.injEq, List.cons.injEq, and_true] at h
  exact Prod.ext h.1 h.2

/-! ## Reactions of the coupled modes -/

/-- C1, as stated, fails twice.  With six edges and the coupling list
`[(0,1), (2,3)]` (distinct positions of the generator's list, none used twice)
the second binary reaction fuses the edges at positions 4 and 5 of the
generator's list, educts `[8, 10]` and products `[9, 11]`, not those at positions
2 and 3.  With four edges and the single pair `(3, 0)`, two distinct positions of
the list, the erasure of position 0 leaves three edges and the erasure of
position 3 leaves the vector: no reaction array results. -/
theorem coupled_reaction_not_from_generator_list :
    (∀ cp ∈ [((0 : Nat), (1 : Nat)), (2, 3)],
      cp.1 ≠ cp.2 ∧ cp.1 < ex_edges6.length ∧ cp.2 < ex_edges6.length) ∧
    ([((0 : Nat), (1 : Nat)), (2, 3)].map Prod.fst ++
      [((0 : Nat), (1 : Nat)), (2, 3)].map Prod.snd).Nodup ∧
    ((assemble_bi_C 0 0 0 ex_edges6 [(0, 1), (2, 3)] ex_rand).bind (fun net => net.re[1]?)).map
        (fun r => (r.educts, r.products)) = some ([8, 10], [9, 11]) ∧
    (ex_edges6[2]?.map Prod.fst, ex_edges6[3]?.map Prod.fst) = (some 4, some 6) ∧
    (ex_edges6[4]?.map Prod.fst, ex_edges6[5]?.map Prod.fst) = (some 8, some 10) ∧
    ((3 : Nat) ≠ 0 ∧ 3 < ex_edges4.length ∧ 0 < ex_edges4.length) ∧
    (vec_erase ex_edges4 0).bind (fun v => vec_erase v 3) = none ∧
    (assemble_bi_C 0 0 0 ex_edges4 [(3, 0)] ex_rand).isNone = true := by
  refine ⟨by decide, by decide, by rfl, by decide, by decide, by decide, by rfl, by rfl⟩

/-- C1, amended: for a coupling list whose pairs `(i, j)` address two distinct
valid positions of the edge list current when they are processed, position `i`
still being a position once position `j` has been erased (always so for `i < j`;
for `j < i` it requires `i + 1 < length`), the `k`-th reaction emitted by a
coupled mode has educts `(E_k[i].first, E_k[j].first)` and products
`(E_k[i].second, E_k[j].second)`, where `(i, j)` is the `k`-th pair and `E_k` is
the edge list after the erasures of the earlier pairs. -/
theorem coupled_reaction_from_current_list (ed ad N : Nat) (edges : List Edge)
    (couples : List (Nat × Nat)) (g : RandSrc) (h : couples_valid edges couples) :
    ∃ net, assemble_bi_C ed ad N edges couples g = some net ∧
      ∀ (k : Nat) (hk : k < couples.length), ∃ e1 e2 r,
        (edges_at edges couples k)[couples[k].1]? = some e1 ∧
        (edges_at edges couples k)[couples[k].2]? = some e2 ∧
        net.re[k]? = some r ∧ r.educts = [e1.1, e2.1] ∧ r.products = [e1.2, e2.2] := by
  refine ⟨_, assemble_bi_C_eq ed ad N edges couples g h, ?_⟩
  intro k hk
  obtain ⟨e1, e2, a1, a2, a3⟩ := binary_reactions_getElem? couples (g.advance N) edges k hk h
  refine ⟨e1, e2, binary_of ((g.advance N).unit ((g.advance N).stream ((g.advance N).calls + k)))
    e1 e2, a1, a2, ?_, rfl, rfl⟩
  have hlen : k < (binary_reactions (g.advance N) edges couples).length := by
    rw [binary_reactions_length]; exact hk
  simp only [List.getElem?_append_left hlen]
  exact a3

/-- Witness for C1 amended: six edges and the pairs `(0,1)`, `(2,3)`. -/
theorem coupled_reaction_from_current_list_witness :
    couples_valid ex_edges6 [(0, 1), (2, 3)] ∧
    ∃ net, assemble_bi_C 0 0 2 ex_edges6 [(0, 1), (2, 3)] ex_rand = some net ∧
      ∀ (k : Nat) (hk : k < [((0 : Nat), (1 : Nat)), (2, 3)].length), ∃ e1 e2 r,
        (edges_at ex_edges6 [(0, 1), (2, 3)] k)[([((0 : Nat), (1 : Nat)), (2, 3)][k]).1]? = some e1 ∧
        (edges_at ex_edges6 [(0, 1), (2, 3)] k)[([((0 : Nat), (1 : Nat)), (2, 3)][k]).2]? = some e2 ∧
        net.re[k]? = some r ∧ r.educts = [e1.1, e2.1] ∧ r.products = [e1.2, e2.2] :=
  ⟨by decide, coupled_reaction_from_current_list 0 0 2 ex_edges6 [(0, 1), (2, 3)] ex_rand
    (by decide)⟩

/-! ## Erasure of a coupled pair -/

/-- C2, as stated, fails for `j < i`: on three edges the pair `(1, 0)` leaves the
edge of position 1, which the pair addresses, and loses the edge of position 2,
which it does not address. -/
theorem couple_step_descending_pair_keeps_addressed_edge :
    (couple_step 0 ex_edges3 [] ex_rand (1, 0)).map (fun s => s.1) = some [(2, 3)] ∧
    ex_edges3[1]? = some (2, 3) ∧ ex_edges3[2]? = some (4, 5) := by
  refine ⟨by rfl, by decide, by decide⟩

/-- C2, amended: for a pair `(i, j)` with `i < j` and `j` a position of the
current edge list, one round of the coupling loop is defined and leaves exactly
the edges before position `i`, those strictly between positions `i` and `j` and
those after position `j`, in their order: the two edges at positions `i` and `j`
are removed and no other (the larger position `j` is erased first). -/
theorem couple_step_removes_pair (ad : Nat) (edges : List Edge) (re : List reaction)
    (g : RandSrc) (i j : Nat) (hij : i < j) (hj : j < edges.length) :
    ∃ re1 g1, couple_step ad edges re g (i, j) =
      some (edges.take i ++ (edges.take j).drop (i + 1) ++ edges.drop (j + 1), re1, g1) := by
  have h1 : i < edges.length := by omega
  have h3 : i < (edges.eraseIdx j).length := by
    rw [List.length_eraseIdx_of_lt hj]; omega
  have hi : i < (edges.take j).length := by
    rw [List.length_take]; omega
  have key : erase_pair edges (i, j) =
      edges.take i ++ (edges.take j).drop (i + 1) ++ edges.drop (j + 1) := by
    simp only [erase_pair]
    rw [List.eraseIdx_eq_take_drop_succ edges j, List.eraseIdx_append_of_lt_length hi,
      List.eraseIdx_eq_take_drop_succ (edges.take j) i, List.take_take,
      Nat.min_eq_left (Nat.le_of_lt hij)]
  exact ⟨_, _, key ▸ couple_step_eq ad edges re g (i, j) h1 hj h3⟩

/-- Witness for C2 amended: the pair `(0, 2)` on three edges leaves the middle one. -/
theorem couple_step_removes_pair_witness :
    (0 : Nat) < 2 ∧ 2 < ex_edges3.length ∧
    ∃ re1 g1, couple_step 0 ex_edges3 [] ex_rand (0, 2) =
      some (ex_edges3.take 0 ++ (ex_edges3.take 2).drop (0 + 1) ++ ex_edges3.drop (2 + 1),
        re1, g1) :=
  ⟨by decide, by decide, couple_step_removes_pair 0 ex_edges3 [] ex_rand 0 2 (by decide)
    (by decide)⟩

/-! ## Conservation and order -/

/-- C3, as stated, fails: on three edges the single pair `(2, 0)` has `2 ≠ 0` and
both positions valid in the edge list, yet the erasure of position 0 leaves two
edges and the erasure of position 2 leaves the vector: there is no assembled
network with one binary and one unary reaction. -/
theorem descending_last_pair_has_no_counts :
    ((2 : Nat) ≠ 0 ∧ 2 < ex_edges3.length ∧ 0 < ex_edges3.length) ∧
    (vec_erase ex_edges3 0).bind (fun v => vec_erase v 2) = none ∧
    (assemble_bi_C 0 0 3 ex_edges3 [(2, 0)] ex_rand).isNone = true := by
  refine ⟨by decide, by rfl, by rfl⟩

/-- C3, amended: for every `N`, every edge list of length `M` and every coupling
list whose pairs `(i, j)` have `i ≠ j` with both positions valid in the edge list
when the pair is processed and position `i` still valid once position `j` has
been erased (always so for `i < j`; for `j < i` it requires `i + 1 < length`),
the coupled assembler yields a network with exactly `|couples|` binary
reactions, exactly `M - 2*|couples|` unary reactions and `M - |couples|`
reactions in all (and `2*|couples| ≤ M`, so the differences are not truncated). -/
theorem assemble_reaction_counts (ed ad N : Nat) (edges : List Edge)
    (couples : List (Nat × Nat)) (g : RandSrc) (h : couples_valid edges couples) :
    ∃ net, assemble_bi_C ed ad N edges couples g = some net ∧
      net.re.countP is_binary = couples.length ∧
      net.re.countP is_unary = edges.length - 2 * couples.length ∧
      net.re.length = edges.length - couples.length ∧
      2 * couples.length ≤ edges.length := by
  refine ⟨_, assemble_bi_C_eq ed ad N edges couples g h, ?_⟩
  have hlen := edges_after_length couples edges h
  have hb := binary_reactions_shape couples (g.advance N) edges
  have hbl := binary_reactions_length couples (g.advance N) edges
  have b1 : (binary_reactions (g.advance N) edges couples).countP is_binary =
      couples.length := by
    rw [← hbl, List.countP_eq_length]; exact fun r hr => (hb r hr).1
  have b2 : (binary_reactions (g.advance N) edges couples).countP is_unary = 0 := by
    rw [List.countP_eq_zero]; exact fun r hr => by simp [(hb r hr).2]
  have u1 : ((edges_after edges couples).map (unary_of (ad : ℚ))).countP is_unary =
      (edges_after edges couples).length := by
    rw [← List.length_map (edges_after edges couples) (unary_of (ad : ℚ)),
      List.countP_eq_length]
    intro r hr
    obtain ⟨e, _, rfl⟩ := List.mem_map.1 hr
    exact (unary_of_shape _ e).1
  have u2 : ((edges_after edges couples).map (unary_of (ad : ℚ))).countP is_binary = 0 := by
    rw [List.countP_eq_zero]
    intro r hr
    obtain ⟨e, _, rfl⟩ := List.mem_map.1 hr
    simp [(unary_of_shape _ e).2]
  simp only [List.countP_append, List.length_append, List.length_map, b1, b2, u1, u2, hbl]
  omega

/-- Witness for C3 amended: 40 edges with 10 pairs give 10 binary and 20 unary reactions,
30 in all. -/
theorem assemble_reaction_counts_witness :
    couples_valid ex_edges40 ex_couples10 ∧
    ∃ net, assemble_bi_C 0 0 20 ex_edges40 ex_couples10 ex_rand = some net ∧
      net.re.countP is_binary = ex_couples10.length ∧
      net.re.countP is_unary = ex_edges40.length - 2 * ex_couples10.length ∧
      net.re.length = ex_edges40.length - ex_couples10.length ∧
      2 * ex_couples10.length ≤ ex_edges40.length :=
  ⟨by decide, assemble_reaction_counts 0 0 20 ex_edges40 ex_couples10 ex_rand (by decide)⟩

/-- C4, as stated, fails: on four edges the single pair `(3, 1)` addresses two
valid distinct positions, yet the erasure of position 1 leaves three edges and
the erasure of position 3 leaves the vector: no reaction array is produced. -/
theorem descending_last_pair_has_no_reaction_array :
    ((3 : Nat) ≠ 1 ∧ 3 < ex_edges4.length ∧ 1 < ex_edges4.length) ∧
    (vec_erase ex_edges4 1).bind (fun v => vec_erase v 3) = none ∧
    (assemble_bi_C 0 0 4 ex_edges4 [(3, 1)] ex_rand).isNone = true := by
  refine ⟨by decide, by rfl, by rfl⟩

/-- C4, amended: for a coupling list whose pairs `(i, j)` address only valid
distinct positions, position `i` still being valid once position `j` has been
erased (always so for `i < j`; for `j < i` it requires `i + 1 < length`), the
reaction array of a coupled mode is `bins ++ unas`: `bins` holds one binary
reaction per coupling pair, the `k`-th one fusing the edges the `k`-th pair
addresses (its activation energy being the `k`-th draw after the species loop),
`unas` holds one unary reaction per remaining edge in the order of the remaining
edge list, and no unary reaction stands before a binary one. -/
theorem assemble_reaction_order (ed ad N : Nat) (edges : List Edge)
    (couples : List (Nat × Nat)) (g : RandSrc) (h : couples_valid edges couples) :
    ∃ net bins unas, assemble_bi_C ed ad N edges couples g = some net ∧
      net.re = bins ++ unas ∧ bins.length = couples.length ∧
      (∀ (k : Nat) (hk : k < couples.length), ∃ e1 e2,
        (edges_at edges couples k)[couples[k].1]? = some e1 ∧
        (edges_at edges couples k)[couples[k].2]? = some e2 ∧
        bins[k]? = some (binary_of (g.unit (g.stream (g.calls + N + k))) e1 e2)) ∧
      unas = (edges_after edges couples).map (unary_of (ad : ℚ)) ∧
      (∀ (a b : Nat) (ra rb : reaction), net.re[a]? = some ra → net.re[b]? = some rb →
        is_unary ra = true → is_binary rb = true → b < a) := by
  refine ⟨_, binary_reactions (g.advance N) edges couples,
    (edges_after edges couples).map (unary_of (ad : ℚ)),
    assemble_bi_C_eq ed ad N edges couples g h, rfl,
    binary_reactions_length couples (g.advance N) edges, ?_, rfl, ?_⟩
  · intro k hk
    exact binary_reactions_getElem? couples (g.advance N) edges k hk h
  · intro a b ra rb ha hb ua bb
    have hbl := binary_reactions_length couples (g.advance N) edges
    simp only at ha hb
    have ha1 : ¬ a < (binary_reactions (g.advance N) edges couples).length := by
      intro hlt
      rw [List.getElem?_append_left hlt] at ha
      have := (binary_reactions_shape couples (g.advance N) edges ra
        (List.getElem?_mem ha)).2
      simp [this] at ua
    have hb1 : b < (binary_reactions (g.advance N) edges couples).length := by
      by_contra hge
      rw [List.getElem?_append_right (Nat.le_of_not_lt hge)] at hb
      obtain ⟨e, _, rfl⟩ := List.mem_map.1 (List.getElem?_mem hb)
      simp [(unary_of_shape _ e).2] at bb
    omega

/-- Witness for C4 amended: six edges and the pairs `(0,1)`, `(2,3)`. -/
theorem assemble_reaction_order_witness :
    couples_valid ex_edges6 [(0, 1), (2, 3)] ∧
    ∃ net bins unas, assemble_bi_C 0 0 2 ex_edges6 [(0, 1), (2, 3)] ex_rand = some net ∧
      net.re = bins ++ unas ∧ bins.length = [((0 : Nat), (1 : Nat)), (2, 3)].length ∧
      (∀ (k : Nat) (hk : k < [((0 : Nat), (1 : Nat)), (2, 3)].length), ∃ e1 e2,
        (edges_at ex_edges6 [(0, 1), (2, 3)] k)[([((0 : Nat), (1 : Nat)), (2, 3)][k]).1]? =
          some e1 ∧
        (edges_at ex_edges6 [(0, 1), (2, 3)] k)[([((0 : Nat), (1 : Nat)), (2, 3)][k]).2]? =
          some e2 ∧
        bins[k]? =
          some (binary_of (ex_rand.unit (ex_rand.stream (ex_rand.calls + 2 + k))) e1 e2)) ∧
      unas = (edges_after ex_edges6 [(0, 1), (2, 3)]).map (unary_of ((0 : Nat) : ℚ)) ∧
      (∀ (a b : Nat) (ra rb : reaction), net.re[a]? = some ra → net.re[b]? = some rb →
        is_unary ra = true → is_binary rb = true → b < a) :=
  ⟨by decide, assemble_reaction_order 0 0 2 ex_edges6 [(0, 1), (2, 3)] ex_rand (by decide)⟩

/-! ## Activation energy of the unary reactions -/

/-- C5 at a concrete input (two species, one edge, no coupling pair, every draw
16384 with `RAND_MAX = 32767`): the unary reaction of the remaining edge carries
the activation energy 0, the value of `aener_dist`, and the assembler has made
two calls of `rand()`, those of the two species; a fresh draw would have given
`16384/32767` with a third call. -/
theorem unary_activation_is_selector_value :
    (assemble_bi_C 0 0 2 [(0, 1)] [] ex_rand).map (fun net => (net.re, net.rnd.calls)) =
      some ([unary_of 0 (0, 1)], 2) ∧
    ex_rand.unit (ex_rand.stream 2) = 16384 / 32767 ∧ (0 : ℚ) ≠ 16384 / 32767 := by
  refine ⟨by rfl, ?_, by norm_num⟩
  norm_num [RandSrc.unit, ex_rand]

/-! ## Species -/

/-- C6: for every `N`, both species loops emit exactly `N` species, the one at
position `k` having id `k`, name `A_k` and constant flag false; these are the
species of every create mode; and both `rm_add_species_ne` and `rm_add_species`
append one species whose id is the current length of the array. -/
theorem create_modes_species_dense (N : Nat) :
    species_dense N (species_loop_ne N 0 []) ∧
    (∀ (ed : Nat) (g : RandSrc), species_dense N (species_loop ed N 0 [] g).1) ∧
    (∀ edges : List Edge, (assemble_NM N edges).1 = species_loop_ne N 0 []) ∧
    (∀ (ed ad : Nat) (edges : List Edge) (couples : List (Nat × Nat)) (g : RandSrc)
      (net : Assembled), assemble_bi_C ed ad N edges couples g = some net →
        net.sp = (species_loop ed N 0 [] g).1 ∧ species_dense N net.sp) ∧
    (∀ (sp : List species) (t : Nat), ∃ s, rm_add_species_ne sp t = sp ++ [s] ∧
      s.id = sp.length ∧ s.name = "A_" ++ toString t ∧ s.constant = false) ∧
    (∀ (g : RandSrc) (sp : List species) (t ed : Nat), ∃ s,
      (rm_add_species g sp t ed).1 = sp ++ [s] ∧
      s.id = sp.length ∧ s.name = "A_" ++ toString t ∧ s.constant = false) := by
  refine ⟨?_, ?_, ?_, ?_, ?_, ?_⟩
  · rw [species_loop_ne_zero]; exact species_dense_range N (fun _ => 0)
  · intro ed g
    rw [species_loop_zero]; exact species_dense_range N (species_energy ed g)
  · intro edges; rfl
  · intro ed ad edges couples g net h
    have e := assemble_bi_C_sp ed ad N edges couples g net h
    refine ⟨e, ?_⟩
    rw [e, species_loop_zero]; exact species_dense_range N (species_energy ed g)
  · intro sp t
    exact ⟨_, rm_add_species_ne_eq sp t, rfl, rfl, rfl⟩
  · intro g sp t ed
    refine ⟨species_A sp.length t (species_energy ed g 0), ?_, rfl, rfl, rfl⟩
    rw [rm_add_species_eq]

/-- C7: for a draw `r` with `r ≤ RAND_MAX` and `RAND_MAX > 0`, `rm_add_species`
with `energy_dist = 0` appends a species of energy `-r/RAND_MAX`, which lies in
the closed interval `[-1, 0]`. -/
theorem rm_add_species_energy_linear (g : RandSrc) (sp : List species) (t : Nat)
    (hmax : 0 < g.RAND_MAX) (hr : g.stream g.calls ≤ g.RAND_MAX) :
    ∃ s, (rm_add_species g sp t 0).1 = sp ++ [s] ∧
      s.energy = -((g.stream g.calls : ℚ) / (g.RAND_MAX : ℚ)) ∧
      -1 ≤ s.energy ∧ s.energy ≤ 0 := by
  have hpos : (0 : ℚ) < (g.RAND_MAX : ℚ) := by exact_mod_cast hmax
  have hle : (g.stream g.calls : ℚ) ≤ (g.RAND_MAX : ℚ) := by exact_mod_cast hr
  have hnn : (0 : ℚ) ≤ (g.stream g.calls : ℚ) := by positivity
  have h1 : (g.stream g.calls : ℚ) / (g.RAND_MAX : ℚ) ≤ 1 := (div_le_one hpos).2 hle
  have h0 : 0 ≤ (g.stream g.calls : ℚ) / (g.RAND_MAX : ℚ) := div_nonneg hnn hpos.le
  refine ⟨species_A sp.length t (species_energy 0 g 0), ?_, ?_, ?_, ?_⟩
  · rw [rm_add_species_eq]
  · simp [species_A, species_energy, neg_div]
  · simp only [species_A, species_energy, if_true, Nat.add_zero, neg_div]; linarith
  · simp only [species_A, species_energy, if_true, Nat.add_zero, neg_div]; linarith

/-- Witness for C7: the draw 16384 with `RAND_MAX = 32767`. -/
theorem rm_add_species_energy_linear_witness :
    0 < ex_rand.RAND_MAX ∧ ex_rand.stream ex_rand.calls ≤ ex_rand.RAND_MAX ∧
    ∃ s, (rm_add_species ex_rand [] 0 0).1 = [] ++ [s] ∧
      s.energy = -((ex_rand.stream ex_rand.calls : ℚ) / (ex_rand.RAND_MAX : ℚ)) ∧
      -1 ≤ s.energy ∧ s.energy ≤ 0 :=
  ⟨by decide, by decide, rm_add_species_energy_linear ex_rand [] 0 (by decide) (by decide)⟩

/-! ## Well-formed reactions -/

/-- C8, as stated, fails: six edges with all endpoints below 12 and the single
pair `(5, 0)`, two valid distinct positions, yet the erasure of position 0
leaves five edges and the erasure of position 5 leaves the vector: there is no
assembled network. -/
theorem descending_last_pair_has_no_network :
    (∀ e ∈ ex_edges6, e.1 < 12 ∧ e.2 < 12) ∧
    ((5 : Nat) ≠ 0 ∧ 5 < ex_edges6.length ∧ 0 < ex_edges6.length) ∧
    (vec_erase ex_edges6 0).bind (fun v => vec_erase v 5) = none ∧
    (assemble_bi_C 0 0 12 ex_edges6 [(5, 0)] ex_rand).isNone = true := by
  refine ⟨by decide, by decide, by rfl, by rfl⟩

/-- C8, amended: if every edge has both endpoints below `N` and the coupling
pairs `(i, j)` address valid distinct positions when processed, position `i`
still being valid once position `j` has been erased (always so for `i < j`; for
`j < i` it requires `i + 1 < length`), the coupled assembler yields a network
with `N` species in which every reaction has at least one educt and one product
(the first `|couples|` reactions exactly two and two, the later ones exactly one
and one) and every educt and product id is below the number of species. -/
theorem assemble_reactions_reference_species (ed ad N : Nat) (edges : List Edge)
    (couples : List (Nat × Nat)) (g : RandSrc) (hE : ∀ e ∈ edges, e.1 < N ∧ e.2 < N)
    (h : couples_valid edges couples) :
    ∃ net, assemble_bi_C ed ad N edges couples g = some net ∧ net.sp.length = N ∧
      ∀ (k : Nat) (r : reaction), net.re[k]? = some r →
        1 ≤ r.educts.length ∧ 1 ≤ r.products.length ∧
        (k < couples.length → r.educts.length = 2 ∧ r.products.length = 2) ∧
        (couples.length ≤ k → r.educts.length = 1 ∧ r.products.length = 1) ∧
        (∀ a ∈ r.educts, a < net.sp.length) ∧ (∀ a ∈ r.products, a < net.sp.length) := by
  refine ⟨_, assemble_bi_C_eq ed ad N edges couples g h, by simp, ?_⟩
  intro k r hk
  have hbl := binary_reactions_length couples (g.advance N) edges
  simp only [List.length_map, List.length_range] at hk ⊢
  by_cases hlt : k < couples.length
  · have hlt1 : k < (binary_reactions (g.advance N) edges couples).length := by omega
    rw [List.getElem?_append_left hlt1] at hk
    obtain ⟨ae, e1, e2, m1, m2, rfl⟩ :=
      binary_reactions_mem couples (g.advance N) edges h r (List.getElem?_mem hk)
    have b1 := hE e1 m1
    have b2 := hE e2 m2
    refine ⟨by simp [binary_of], by simp [binary_of], fun _ => by simp [binary_of],
      fun hge => absurd hlt (Nat.not_lt.2 hge), ?_, ?_⟩
    · intro a ha
      simp only [binary_of, List.mem_cons, List.mem_singleton, List.not_mem_nil, or_false] at ha
      rcases ha with rfl | rfl
      · exact b1.1
      · exact b2.1
    · intro a ha
      simp only [binary_of, List.mem_cons, List.mem_singleton, List.not_mem_nil, or_false] at ha
      rcases ha with rfl | rfl
      · exact b1.2
      · exact b2.2
  · have hge : (binary_reactions (g.advance N) edges couples).length ≤ k := by omega
    rw [List.getElem?_append_right hge] at hk
    obtain ⟨e, me, rfl⟩ := List.mem_map.1 (List.getElem?_mem hk)
    have b := hE e (edges_after_subset couples edges me)
    refine ⟨by simp [unary_of], by simp [unary_of], fun hl => absurd hl hlt,
      fun _ => by simp [unary_of], ?_, ?_⟩
    · intro a ha
      simp only [unary_of, List.mem_singleton] at ha
      rw [ha]; exact b.1
    · intro a ha
      simp only [unary_of, List.mem_singleton] at ha
      rw [ha]; exact b.2

/-- Witness for C8 amended: twelve species, six edges and the pairs `(1,0)`, `(2,3)`. -/
theorem assemble_reactions_reference_species_witness :
    (∀ e ∈ ex_edges6, e.1 < 12 ∧ e.2 < 12) ∧ couples_valid ex_edges6 [(1, 0), (2, 3)] ∧
    ∃ net, assemble_bi_C 0 0 12 ex_edges6 [(1, 0), (2, 3)] ex_rand = some net ∧
      net.sp.length = 12 ∧
      ∀ (k : Nat) (r : reaction), net.re[k]? = some r →
        1 ≤ r.educts.length ∧ 1 ≤ r.products.length ∧
        (k < [((1 : Nat), (0 : Nat)), (2, 3)].length →
          r.educts.length = 2 ∧ r.products.length = 2) ∧
        ([((1 : Nat), (0 : Nat)), (2, 3)].length ≤ k →
          r.educts.length = 1 ∧ r.products.length = 1) ∧
        (∀ a ∈ r.educts, a < net.sp.length) ∧ (∀ a ∈ r.products, a < net.sp.length) :=
  ⟨by decide, by decide, assemble_reactions_reference_species 0 0 12 ex_edges6
    [(1, 0), (2, 3)] ex_rand (by decide) (by decide)⟩

/-! ## The uncoupled modes -/

/-- C9: in the uncoupled modes the network has the `N` species `A_0 .. A_{N-1}`
(id `k`, name `A_k`, constant flag false, energy 0) and its reaction list is
exactly one reversible unary reaction per edge, in edge-list order, with educt
`first`, product `second` and activation energy 0; hence for `M` edges without
duplicates whose endpoints are distinct and below `N` there are `M` reversible
unary reactions, each between two distinct species below `N`, and no reaction
occurs twice. -/
theorem uncoupled_network (N : Nat) (edges : List Edge) :
    (assemble_NM N edges).1 = (List.range N).map (fun k => species_A k k 0) ∧
    (assemble_NM N edges).2 = edges.map (unary_of 0) ∧
    ((∀ e ∈ edges, e.1 ≠ e.2 ∧ e.1 < N ∧ e.2 < N) → edges.Nodup →
      (assemble_NM N edges).2.length = edges.length ∧
      (∀ r ∈ (assemble_NM N edges).2, r.reversible = true ∧ r.activation = 0 ∧
        ∃ a b, r.educts = [a] ∧ r.products = [b] ∧ a ≠ b ∧ a < N ∧ b < N) ∧
      (assemble_NM N edges).2.Nodup) := by
  have hre : (assemble_NM N edges).2 = edges.map (unary_of 0) := by
    simp [assemble_NM, unary_fold_eq]
  refine ⟨?_, hre, ?_⟩
  · simp [assemble_NM, species_loop_ne_zero]
  · intro hE hnd
    rw [hre]
    refine ⟨by simp, ?_, hnd.map (unary_of_injective 0)⟩
    intro r hr
    obtain ⟨e, me, rfl⟩ := List.mem_map.1 hr
    exact ⟨rfl, rfl, e.1, e.2, rfl, rfl, hE e me⟩

/-- Witness for C9: three species on a path of two edges. -/
theorem uncoupled_network_witness :
    (∀ e ∈ [((0 : Nat), (1 : Nat)), (1, 2)], e.1 ≠ e.2 ∧ e.1 < 3 ∧ e.2 < 3) ∧
    [((0 : Nat), (1 : Nat)), (1, 2)].Nodup ∧
    (assemble_NM 3 [(0, 1), (1, 2)]).2.length = 2 ∧
    (∀ r ∈ (assemble_NM 3 [(0, 1), (1, 2)]).2, r.reversible = true ∧ r.activation = 0 ∧
      ∃ a b, r.educts = [a] ∧ r.products = [b] ∧ a ≠ b ∧ a < 3 ∧ b < 3) ∧
    (assemble_NM 3 [(0, 1), (1, 2)]).2.Nodup :=
  ⟨by decide, by decide,
    (uncoupled_network 3 [(0, 1), (1, 2)]).2.2 (by decide) (by decide)⟩

/-! ## Parameter checks of the dispatch -/

theorem rejected_andThen (m msg : String) (o : Outcome) (f : Run → Outcome)
    (h : o.rejected m msg) : (o.andThen f).rejected m msg := by
  obtain ⟨run, rfl, h1, h2⟩ := h
  exact ⟨run, rfl, h1, h2⟩

theorem before_andThen (m msg t : String) (b : Run → Outcome) (o : Outcome)
    (hb : block_ok t b) (ht : t ≠ m) (h : o.before m msg) : (o.andThen b).before m msg := by
  rcases h with ⟨r, rfl, hc⟩ | h
  · rcases hb r with ⟨acts, e⟩ | ⟨acts, s, e⟩
    · left
      refine ⟨_, e, ?_⟩
      intro ev hev
      simp only [Run.emit, List.mem_append, List.mem_map] at hev
      rcases hev with hev | ⟨a, _, rfl⟩
      · exact hc ev hev
      · exact ht
    · right
      refine ⟨_, e, ?_, Or.inr ⟨Event.mk t (Action.report s), s, ?_, ht, rfl⟩⟩
      · intro ev hev hm
        simp only [Run.emit, List.mem_append, List.mem_map] at hev
        rcases hev with hev | ⟨a, _, rfl⟩
        · exact absurd hm (hc ev hev)
        · exact absurd hm ht
      · simp [Run.emit]
  · right; exact rejected_andThen m msg o b h

theorem reject_after_before (m msg : String) (b : Run → Outcome) (o : Outcome)
    (hb : ∀ r, b r = Outcome.exit 1 (r.emit m [Action.report msg]))
    (h : o.before m msg) : (o.andThen b).rejected m msg := by
  rcases h with ⟨r, rfl, hc⟩ | h
  · refine ⟨_, hb r, ?_, Or.inl ?_⟩
    · intro ev hev _
      simp only [Run.emit, List.mem_append, List.mem_map, List.mem_singleton] at hev
      rcases hev with hev | ⟨a, rfl, rfl⟩
      · exact absurd ‹ev.mode = m› (hc ev hev)
      · rfl
    · simp [Run.emit]
  · exact rejected_andThen m msg o b h

theorem mode_print_network_ok (cl : cl_para) (ext : Extern) :
    block_ok "print_network" (mode_print_network cl ext) := by
  intro r
  by_cases h1 : cl.have_param "print_network" = true
  · by_cases h2 : (!cl.have_param "in") = true
    · have e : mode_print_network cl ext r = Outcome.exit 1 (r.emit "print_network"
          ([] ++ [Action.report (missing_report "print_network")])) := by
        simp only [mode_print_network, h1, h2, if_true]; rfl
      exact Or.inr ⟨_, _, e⟩
    · cases hr : ext.read_jrnf_reaction_n (cl.get_param "in") with
      | none =>
        have e : mode_print_network cl ext r = Outcome.exit 1 (r.emit "print_network"
            ([Action.read_jrnf (cl.get_param "in")] ++
              [Action.report "Error at reading jrnf-file!"])) := by
          simp only [mode_print_network, h1, h2, hr, if_true]; rfl
        exact Or.inr ⟨_, _, e⟩
      | some v =>
        have e : ∃ acts, mode_print_network cl ext r = Outcome.next (r.emit "print_network" acts) := by
          simp only [mode_print_network, h1, h2, hr, if_true]; exact ⟨_, rfl⟩
        exact Or.inl e
  · have e : mode_print_network cl ext r = Outcome.next (r.emit "print_network" []) := by
      simp [mode_print_network, h1, Run.emit]
    exact Or.inl ⟨_, e⟩

theorem mode_translate_jrnf_sbml_ok (cl : cl_para) (ext : Extern) :
    block_ok "translate_jrnf_sbml" (mode_translate_jrnf_sbml cl ext) := by
  intro r
  by_cases h1 : cl.have_param "translate_jrnf_sbml" = true
  · by_cases h2 : (!cl.have_param "in" || !cl.have_param "out") = true
    · have e : mode_translate_jrnf_sbml cl ext r = Outcome.exit 1 (r.emit "translate_jrnf_sbml"
          ([] ++ [Action.report (missing_report "translate_jrnf_sbml")])) := by
        simp only [mode_translate_jrnf_sbml, h1, h2, if_true]; rfl
      exact Or.inr ⟨_, _, e⟩
    · cases hr : ext.read_jrnf_reaction_n (cl.get_param "in") with
      | none =>
        have e : mode_translate_jrnf_sbml cl ext r = Outcome.exit 1 (r.emit "translate_jrnf_sbml"
            ([Action.read_jrnf (cl.get_param "in")] ++
              [Action.report "Error at reading jrnf-file!"])) := by
          simp only [mode_translate_jrnf_sbml, h1, h2, hr, if_true]; rfl
        exact Or.inr ⟨_, _, e⟩
      | some v =>
        have e : ∃ acts, mode_translate_jrnf_sbml cl ext r = Outcome.next (r.emit "translate_jrnf_sbml" acts) := by
          simp only [mode_translate_jrnf_sbml, h1, h2, hr, if_true]; exact ⟨_, rfl⟩
        exact Or.inl e
  · have e : mode_translate_jrnf_sbml cl ext r = Outcome.next (r.emit "translate_jrnf_sbml" []) := by
      simp [mode_translate_jrnf_sbml, h1, Run.emit]
    exact Or.inl ⟨_, e⟩

theorem mode_transform_rm_species_r_ok (cl : cl_para) (ext : Extern) :
    block_ok "transform_rm_species_r" (mode_transform_rm_species_r cl ext) := by
  intro r
  by_cases h1 : cl.have_param "transform_rm_species_r" = true
  · by_cases h2 : (!cl.have_param "in" || !cl.have_param "out" || !cl.have_param "sp") = true
    · have e : mode_transform_rm_species_r cl ext r = Outcome.exit 1 (r.emit "transform_rm_species_r"
          ([] ++ [Action.report (missing_report "transform_rm_species_r")])) := by
        simp only [mode_transform_rm_species_r, h1, h2, if_true]; rfl
      exact Or.inr ⟨_, _, e⟩
    · cases hr : ext.read_jrnf_reaction_n (cl.get_param "in") with
      | none =>
        have e : mode_transform_rm_species_r cl ext r = Outcome.exit 1 (r.emit "transform_rm_species_r"
            ([Action.read_jrnf (cl.get_param "in")] ++
              [Action.report "Error at reading jrnf-file!"])) := by
          simp only [mode_transform_rm_species_r, h1, h2, hr, if_true]; rfl
        exact Or.inr ⟨_, _, e⟩
      | some v =>
        have e : ∃ acts, mode_transform_rm_species_r cl ext r = Outcome.next (r.emit "transform_rm_species_r" acts) := by
          simp only [mode_transform_rm_species_r, h1, h2, hr, if_true]; exact ⟨_, rfl⟩
        exact Or.inl e
  · have e : mode_transform_rm_species_r cl ext r = Outcome.next (r.emit "transform_rm_species_r" []) := by
      simp [mode_transform_rm_species_r, h1, Run.emit]
    exact Or.inl ⟨_, e⟩

theorem mode_transform_rm_species_s_ok (cl : cl_para) (ext : Extern) :
    block_ok "transform_rm_species_s" (mode_transform_rm_species_s cl ext) := by
  intro r
  by_cases h1 : cl.have_param "transform_rm_species_s" = true
  · by_cases h2 : (!cl.have_param "in" || !cl.have_param "out" || !cl.have_param "sp") = true
    · have e : mode_transform_rm_species_s cl ext r = Outcome.exit 1 (r.emit "transform_rm_species_s"
          ([] ++ [Action.report (missing_report "transform_rm_species_s")])) := by
        simp only [mode_transform_rm_species_s, h1, h2, if_true]; rfl
      exact Or.inr ⟨_, _, e⟩
    · cases hr : ext.read_jrnf_reaction_n (cl.get_param "in") with
      | none =>
        have e : mode_transform_rm_species_s cl ext r = Outcome.exit 1 (r.emit "transform_rm_species_s"
            ([Action.read_jrnf (cl.get_param "in")] ++
              [Action.report "Error at reading jrnf-file!"])) := by
          simp only [mode_transform_rm_species_s, h1, h2, hr, if_true]; rfl
        exact Or.inr ⟨_, _, e⟩
      | some v =>
        have e : ∃ acts, mode_transform_rm_species_s cl ext r = Outcome.next (r.emit "transform_rm_species_s" acts) := by
          simp only [mode_transform_rm_species_s, h1, h2, hr, if_true]; exact ⟨_, rfl⟩
        exact Or.inl e
  · have e : mode_transform_rm_species_s cl ext r = Outcome.next (r.emit "transform_rm_species_s" []) := by
      simp [mode_transform_rm_species_s, h1, Run.emit]
    exact Or.inl ⟨_, e⟩

theorem mode_print_network_reject (cl : cl_para) (ext : Extern)
    (hflag : cl.have_param "print_network" = true)
    (hmiss : ∃ p ∈ ["in"], cl.have_param p = false) (r : Run) :
    mode_print_network cl ext r = Outcome.exit 1 (r.emit "print_network"
      [Action.report (missing_report "print_network")]) := by
  simp only [List.mem_singleton, exists_eq_left] at hmiss
  simp only [mode_print_network, hflag, hmiss, if_true]; rfl

theorem mode_translate_jrnf_sbml_reject (cl : cl_para) (ext : Extern)
    (hflag : cl.have_param "translate_jrnf_sbml" = true)
    (hmiss : ∃ p ∈ ["in", "out"], cl.have_param p = false) (r : Run) :
    mode_translate_jrnf_sbml cl ext r = Outcome.exit 1 (r.emit "translate_jrnf_sbml"
      [Action.report (missing_report "translate_jrnf_sbml")]) := by
  have h2 : (!cl.have_param "in" || !cl.have_param "out") = true := by
    obtain ⟨p, hp, hq⟩ := hmiss
    simp only [List.mem_cons, List.mem_singleton, List.not_mem_nil, or_false] at hp
    rcases hp with rfl | rfl <;> simp [hq]
  simp only [mode_translate_jrnf_sbml, hflag, h2, if_true]; rfl

theorem mode_transform_rm_species_r_reject (cl : cl_para) (ext : Extern)
    (hflag : cl.have_param "transform_rm_species_r" = true)
    (hmiss : ∃ p ∈ ["in", "out", "sp"], cl.have_param p = false) (r : Run) :
    mode_transform_rm_species_r cl ext r = Outcome.exit 1 (r.emit "transform_rm_species_r"
      [Action.report (missing_report "transform_rm_species_r")]) := by
  have h2 : (!cl.have_param "in" || !cl.have_param "out" || !cl.have_param "sp") = true := by
    obtain ⟨p, hp, hq⟩ := hmiss
    simp only [List.mem_cons, List.mem_singleton, List.not_mem_nil, or_false] at hp
    rcases hp with rfl | rfl | rfl <;> simp [hq]
  simp only [mode_transform_rm_species_r, hflag, h2, if_true]; rfl

theorem mode_transform_rm_species_s_reject (cl : cl_para) (ext : Extern)
    (hflag : cl.have_param "transform_rm_species_s" = true)
    (hmiss : ∃ p ∈ ["in", "out", "sp"], cl.have_param p = false) (r : Run) :
    mode_transform_rm_species_s cl ext r = Outcome.exit 1 (r.emit "transform_rm_species_s"
      [Action.report (missing_report "transform_rm_species_s")]) := by
  have h2 : (!cl.have_param "in" || !cl.have_param "out" || !cl.have_param "sp") = true := by
    obtain ⟨p, hp, hq⟩ := hmiss
    simp only [List.mem_cons, List.mem_singleton, List.not_mem_nil, or_false] at hp
    rcases hp with rfl | rfl | rfl <;> simp [hq]
  simp only [mode_transform_rm_species_s, hflag, h2, if_true]; rfl

theorem mode_combine_networks_reject (cl : cl_para) (ext : Extern)
    (hflag : cl.have_param "combine_networks" = true)
    (hmiss : ∃ p ∈ ["in1", "in2", "out"], cl.have_param p = false) (r : Run) :
    mode_combine_networks cl ext r = Outcome.exit 1 (r.emit "combine_networks"
      [Action.report (missing_report "combine_networks")]) := by
  have h2 : (!cl.have_param "in1" || !cl.have_param "in2" || !cl.have_param "out") = true := by
    obtain ⟨p, hp, hq⟩ := hmiss
    simp only [List.mem_cons, List.mem_singleton, List.not_mem_nil, or_false] at hp
    rcases hp with rfl | rfl | rfl <;> simp [hq]
  simp only [mode_combine_networks, hflag, h2, if_true]; rfl

theorem before_start (m msg : String) (g : RandSrc) (b : Run → Outcome) :
    ((Outcome.next { log := [], rnd := g }).andThen b).before m msg →
      (b { log := [], rnd := g }).before m msg := fun h => h

theorem start_before (m msg : String) (g : RandSrc) :
    (Outcome.next { log := [], rnd := g }).before m msg :=
  Or.inl ⟨_, rfl, fun _ he => by simp at he⟩

/-- C10, as stated, fails twice.  With the flag `create_ER_NM` alone (no `N`, no
`M`) the program calls the generator, writes `ER_NM_network.jrnf` and ends with
exit code 0.  With `print_network`, `translate_jrnf_sbml` and `in` given and the
file unreadable, `out` is absent for `translate_jrnf_sbml`, yet the only
diagnostic is the read error of `print_network`, which ends the program. -/
theorem create_mode_runs_without_parameters :
    (ex_cl ["create_ER_NM"]).have_param "create_ER_NM" = true ∧
    (ex_cl ["create_ER_NM"]).have_param "N" = false ∧
    (ex_cl ["create_ER_NM"]).have_param "M" = false ∧
    (main (ex_cl ["create_ER_NM"]) ex_extern ex_rand).code = some 0 ∧
    (main (ex_cl ["create_ER_NM"]) ex_extern ex_rand).events =
      [Event.mk "create_ER_NM" (Action.call "create_erdos_renyi"),
       Event.mk "create_ER_NM" (Action.write_jrnf "ER_NM_network.jrnf" [] [])] ∧
    (ex_cl ["print_network", "translate_jrnf_sbml", "in"]).have_param
      "translate_jrnf_sbml" = true ∧
    (ex_cl ["print_network", "translate_jrnf_sbml", "in"]).have_param "out" = false ∧
    (main (ex_cl ["print_network", "translate_jrnf_sbml", "in"]) ex_extern_unreadable
      ex_rand).events =
      [Event.mk "print_network" (Action.read_jrnf ""),
       Event.mk "print_network" (Action.report "Error at reading jrnf-file!")] := by
  refine ⟨by decide, by decide, by decide, by rfl, by rfl, by decide, by decide, by rfl⟩

/-- C10, amended: for every file mode of the CLI table (`print_network`,
`translate_jrnf_sbml`, `transform_rm_species_r`, `transform_rm_species_s`,
`combine_networks`), if the mode flag is present and one of the mode's required
parameters is absent, the program exits with code 1 and the mode performs no
read, transform or write; the mode's missing-parameter diagnostic is the last
line reported, unless an earlier mode's diagnostic has ended the program. -/
theorem file_mode_missing_parameter (cl : cl_para) (ext : Extern) (g : RandSrc)
    (m : String) (req : List String) (hm : (m, req) ∈ file_modes)
    (hflag : cl.have_param m = true) (hmiss : ∃ p ∈ req, cl.have_param p = false) :
    ∃ run, main cl ext g = Outcome.exit 1 run ∧
      (∀ e ∈ run.log, e.mode = m → e.act = Action.report (missing_report m)) ∧
      (run.log.getLast? = some (Event.mk m (Action.report (missing_report m))) ∨
        ∃ e s, run.log.getLast? = some e ∧ e.mode ≠ m ∧ e.act = Action.report s) := by
  have b1 := mode_print_network_ok cl ext
  have b2 := mode_translate_jrnf_sbml_ok cl ext
  have b3 := mode_transform_rm_species_r_ok cl ext
  have b4 := mode_transform_rm_species_s_ok cl ext
  change (main cl ext g).rejected m (missing_report m)
  unfold main
  simp only [file_modes, List.mem_cons, List.mem_singleton, Prod.mk.injEq, List.not_mem_nil,
    or_false] at hm
  rcases hm with ⟨rfl, rfl⟩ | ⟨rfl, rfl⟩ | ⟨rfl, rfl⟩ | ⟨rfl, rfl⟩ | ⟨rfl, rfl⟩
  · iterate 15 apply rejected_andThen
    exact reject_after_before _ _ _ (Outcome.next { log := [], rnd := g })
      (mode_print_network_reject cl ext hflag hmiss) (start_before _ _ g)
  · iterate 14 apply rejected_andThen
    refine reject_after_before _ _ _ _ (mode_translate_jrnf_sbml_reject cl ext hflag hmiss) ?_
    exact before_start _ _ g _ (before_andThen _ _ _ _ _ b1 (by decide) (start_before _ _ g))
  · iterate 13 apply rejected_andThen
    refine reject_after_before _ _ _ _
      (mode_transform_rm_species_r_reject cl ext hflag hmiss) ?_
    refine before_andThen _ _ _ _ _ b2 (by decide) ?_
    exact before_start _ _ g _ (before_andThen _ _ _ _ _ b1 (by decide) (start_before _ _ g))
  · iterate 12 apply rejected_andThen
    refine reject_after_before _ _ _ _
      (mode_transform_rm_species_s_reject cl ext hflag hmiss) ?_
    refine before_andThen _ _ _ _ _ b3 (by decide) ?_
    refine before_andThen _ _ _ _ _ b2 (by decide) ?_
    exact before_start _ _ g _ (before_andThen _ _ _ _ _ b1 (by decide) (start_before _ _ g))
  · iterate 11 apply rejected_andThen
    refine reject_after_before _ _ _ _ (mode_combine_networks_reject cl ext hflag hmiss) ?_
    refine before_andThen _ _ _ _ _ b4 (by decide) ?_
    refine before_andThen _ _ _ _ _ b3 (by decide) ?_
    refine before_andThen _ _ _ _ _ b2 (by decide) ?_
    exact before_start _ _ g _ (before_andThen _ _ _ _ _ b1 (by decide) (start_before _ _ g))

/-- Witness for C10 amended: `translate_jrnf_sbml` with `in` but without `out`. -/
theorem file_mode_missing_parameter_witness :
    ("translate_jrnf_sbml", ["in", "out"]) ∈ file_modes ∧
    (ex_cl ["translate_jrnf_sbml", "in"]).have_param "translate_jrnf_sbml" = true ∧
    (∃ p ∈ ["in", "out"], (ex_cl ["translate_jrnf_sbml", "in"]).have_param p = false) ∧
    ∃ run, main (ex_cl ["translate_jrnf_sbml", "in"]) ex_extern ex_rand = Outcome.exit 1 run ∧
      (∀ e ∈ run.log, e.mode = "translate_jrnf_sbml" →
        e.act = Action.report (missing_report "translate_jrnf_sbml")) ∧
      (run.log.getLast? = some (Event.mk "translate_jrnf_sbml"
          (Action.report (missing_report "translate_jrnf_sbml"))) ∨
        ∃ e s, run.log.getLast? = some e ∧ e.mode ≠ "translate_jrnf_sbml" ∧
          e.act = Action.report s) :=
  ⟨by decide, by decide, ⟨"out", by decide, by decide⟩,
    file_mode_missing_parameter (ex_cl ["translate_jrnf_sbml", "in"]) ex_extern ex_rand
      "translate_jrnf_sbml" ["in", "out"] (by decide) (by decide)
      ⟨"out", by decide, by decide⟩⟩

/-! ## The helper `rm_2to2rev` -/

/-- C15: for every reaction vector, ids `a b c d`, selector `ae_dist` and draw
`r ≤ RAND_MAX` (with `RAND_MAX > 0`), `rm_2to2rev` returns the vector with exactly
one reaction appended and every earlier entry unchanged; the new reaction is
reversible, has educts `[a, b]` and products `[c, d]`, its activation energy is
`r/RAND_MAX`, which lies in `[0, 1]`; one draw is consumed, and the result is the
same for every `ae_dist` as for `ae_dist = 0`. -/
theorem rm_2to2rev_appends_one (g : RandSrc) (re : List reaction) (a b c d ae_dist : Nat)
    (hmax : 0 < g.RAND_MAX) (hr : g.stream g.calls ≤ g.RAND_MAX) :
    ∃ rea, (rm_2to2rev g re a b c d ae_dist).1 = re ++ [rea] ∧
      rea.reversible = true ∧ rea.educts = [a, b] ∧ rea.products = [c, d] ∧
      rea.activation = (g.stream g.calls : ℚ) / (g.RAND_MAX : ℚ) ∧
      0 ≤ rea.activation ∧ rea.activation ≤ 1 ∧
      (rm_2to2rev g re a b c d ae_dist).2.calls = g.calls + 1 ∧
      rm_2to2rev g re a b c d ae_dist = rm_2to2rev g re a b c d 0 := by
  have hpos : (0 : ℚ) < (g.RAND_MAX : ℚ) := by exact_mod_cast hmax
  have hle : (g.stream g.calls : ℚ) ≤ (g.RAND_MAX : ℚ) := by exact_mod_cast hr
  have hnn : (0 : ℚ) ≤ (g.stream g.calls : ℚ) := by positivity
  refine ⟨binary_of (g.unit (g.stream g.calls)) (a, c) (b, d), ?_, rfl, rfl, rfl, rfl, ?_, ?_,
    ?_, ?_⟩
  · rw [rm_2to2rev_eq]
  · exact div_nonneg hnn hpos.le
  · exact (div_le_one hpos).2 hle
  · rw [rm_2to2rev_eq]; rfl
  · rw [rm_2to2rev_eq, rm_2to2rev_eq]

/-- Witness for C15: the draw 16384 with `RAND_MAX = 32767`, selector 1. -/
theorem rm_2to2rev_appends_one_witness :
    0 < ex_rand.RAND_MAX ∧ ex_rand.stream ex_rand.calls ≤ ex_rand.RAND_MAX ∧
    ∃ rea, (rm_2to2rev ex_rand [] 0 1 2 3 1).1 = [] ++ [rea] ∧
      rea.reversible = true ∧ rea.educts = [0, 1] ∧ rea.products = [2, 3] ∧
      rea.activation = (ex_rand.stream ex_rand.calls : ℚ) / (ex_rand.RAND_MAX : ℚ) ∧
      0 ≤ rea.activation ∧ rea.activation ≤ 1 ∧
      (rm_2to2rev ex_rand [] 0 1 2 3 1).2.calls = ex_rand.calls + 1 ∧
      rm_2to2rev ex_rand [] 0 1 2 3 1 = rm_2to2rev ex_rand [] 0 1 2 3 0 :=
  ⟨by decide, by decide, rm_2to2rev_appends_one ex_rand [] 0 1 2 3 1 (by decide) (by decide)⟩

/-! ## The logarithmic slot of `rm_add_species` -/

/-- C16, as stated, fails: on the draw 16384 with `RAND_MAX = 32767` the selector 1
gives the new species the energy `16384/32767`, the selector 0 the energy
`-16384/32767`, so the two species differ. -/
theorem rm_add_species_stub_differs :
    (rm_add_species ex_rand [] 0 1).1.map (fun s => s.energy) = [16384 / 32767] ∧
    (rm_add_species ex_rand [] 0 0).1.map (fun s => s.energy) = [-16384 / 32767] ∧
    (rm_add_species ex_rand [] 0 1).1 ≠ (rm_add_species ex_rand [] 0 0).1 := by
  have h1 : (rm_add_species ex_rand [] 0 1).1.map (fun s => s.energy) = [16384 / 32767] := by
    norm_num [rm_add_species_eq, species_A, species_energy, RandSrc.unit, ex_rand]
  have h0 : (rm_add_species ex_rand [] 0 0).1.map (fun s => s.energy) = [-16384 / 32767] := by
    norm_num [rm_add_species_eq, species_A, species_energy, RandSrc.unit, ex_rand]
  refine ⟨h1, h0, ?_⟩
  intro h
  rw [h, h0] at h1
  norm_num at h1

/-- C16, amended: for every species vector, index `t` and draw `r`, `rm_add_species`
with a non-zero `energy_dist` appends a species with the same id, name and
constant flag as with `energy_dist = 0` and leaves the random source in the same
state, but the energy is `+r/RAND_MAX`, the negative of the energy `-r/RAND_MAX`
of `energy_dist = 0`; for `RAND_MAX > 0` the two species agree only when `r = 0`. -/
theorem rm_add_species_stub_negates (g : RandSrc) (sp : List species) (t ed : Nat)
    (hed : ed ≠ 0) :
    ∃ s0 s1, (rm_add_species g sp t 0).1 = sp ++ [s0] ∧
      (rm_add_species g sp t ed).1 = sp ++ [s1] ∧
      s1.id = s0.id ∧ s1.name = s0.name ∧ s1.constant = s0.constant ∧
      s1.energy = (g.stream g.calls : ℚ) / (g.RAND_MAX : ℚ) ∧ s1.energy = -s0.energy ∧
      (rm_add_species g sp t ed).2 = (rm_add_species g sp t 0).2 ∧
      (0 < g.RAND_MAX → (s1 = s0 ↔ g.stream g.calls = 0)) := by
  refine ⟨species_A sp.length t (species_energy 0 g 0),
    species_A sp.length t (species_energy ed g 0), ?_, ?_, rfl, rfl, rfl, ?_, ?_, ?_, ?_⟩
  · rw [rm_add_species_eq]
  · rw [rm_add_species_eq]
  · simp [species_A, species_energy, hed, RandSrc.unit]
  · simp [species_A, species_energy, hed, RandSrc.unit, neg_div]
  · rw [rm_add_species_eq, rm_add_species_eq]
  · intro hmax
    have hpos : (0 : ℚ) < (g.RAND_MAX : ℚ) := by exact_mod_cast hmax
    have hne : (g.RAND_MAX : ℚ) ≠ 0 := ne_of_gt hpos
    simp only [species_A, species_energy, hed, RandSrc.unit, if_true, if_false, Nat.add_zero,
      species.mk.injEq, true_and]
    constructor
    · intro h
      have h2 : (g.stream g.calls : ℚ) / (g.RAND_MAX : ℚ) = 0 := by
        rw [neg_div] at h; linarith
      have h3 : (g.stream g.calls : ℚ) = 0 := by
        rcases div_eq_zero_iff.1 h2 with h3 | h3
        · exact h3
        · exact absurd h3 hne
      exact_mod_cast h3
    · intro h
      simp [h]

/-- Witness for C16 amended: selector 1 on the draw 16384 with `RAND_MAX = 32767`. -/
theorem rm_add_species_stub_negates_witness :
    (1 : Nat) ≠ 0 ∧
    ∃ s0 s1, (rm_add_species ex_rand [] 0 0).1 = [] ++ [s0] ∧
      (rm_add_species ex_rand [] 0 1).1 = [] ++ [s1] ∧
      s1.id = s0.id ∧ s1.name = s0.name ∧ s1.constant = s0.constant ∧
      s1.energy = (ex_rand.stream ex_rand.calls : ℚ) / (ex_rand.RAND_MAX : ℚ) ∧
      s1.energy = -s0.energy ∧
      (rm_add_species ex_rand [] 0 1).2 = (rm_add_species ex_rand [] 0 0).2 ∧
      (0 < ex_rand.RAND_MAX → (s1 = s0 ↔ ex_rand.stream ex_rand.calls = 0)) :=
  ⟨by decide, rm_add_species_stub_negates ex_rand [] 0 1 (by decide)⟩

/-! ## The five copies of the coupled assembler -/

theorem unary_loop_SM_eq (edges : List Edge) :
    ∀ re : List reaction, unary_loop_SM edges re = unary_loop 0 edges re := by
  induction edges with
  | nil => intro re; rfl
  | cons e rest ih =>
    intro re
    simp only [unary_loop_SM, unary_loop, ih, Nat.cast_zero]

/-- C18: the five copies of the assembler are the same function: for every `N`,
edge list, coupling list and random source, the copies of `create_ER_NM_bi_C`,
`create_BA_NM_bi_C`, `create_WS_NMalpha_bi_C`, `create_PS_NMhmr_bi_C` and
`create_SM_NMmr_bi_C` give the same result (the same species array, reaction
array and random source, or all of them none), which is that of the assembler
with `energy_dist = aener_dist = 0`. -/
theorem assembler_copies_agree (N : Nat) (edges : List Edge) (couples : List (Nat × Nat))
    (g : RandSrc) :
    assemble_ER_NM_bi_C N edges couples g = assemble_bi_C 0 0 N edges couples g ∧
    assemble_BA_NM_bi_C N edges couples g = assemble_ER_NM_bi_C N edges couples g ∧
    assemble_WS_NMalpha_bi_C N edges couples g = assemble_ER_NM_bi_C N edges couples g ∧
    assemble_PS_NMhmr_bi_C N edges couples g = assemble_ER_NM_bi_C N edges couples g ∧
    assemble_SM_NMmr_bi_C N edges couples g = assemble_ER_NM_bi_C N edges couples g := by
  refine ⟨rfl, rfl, rfl, rfl, ?_⟩
  simp only [assemble_SM_NMmr_bi_C, assemble_ER_NM_bi_C, unary_loop_SM_eq]

/-! ## Every edge is used once -/

theorem perm_cons_eraseIdx (l : List Edge) :
    ∀ i, i < l.length → (l.getD i (0, 0) :: l.eraseIdx i).Perm l := by
  induction l with
  | nil => intro i hi; simp at hi
  | cons a l ih =>
    intro i hi
    cases i with
    | zero => simp
    | succ i =>
      have hi1 : i < l.length := by simpa using hi
      have := ih i hi1
      simp only [List.getD_cons_succ, List.eraseIdx_cons_succ]
      exact (List.Perm.swap a _ _).trans (this.cons a)

theorem erase_pair_perm (edges : List Edge) (cp : Nat × Nat) (h1 : cp.1 < cp.2)
    (h2 : cp.2 < edges.length) :
    (edges.getD cp.1 (0, 0) :: edges.getD cp.2 (0, 0) :: erase_pair edges cp).Perm edges := by
  have hl : (edges.eraseIdx cp.2).length = edges.length - 1 := List.length_eraseIdx_of_lt h2
  have h3 : cp.1 < (edges.eraseIdx cp.2).length := by omega
  have p2 := perm_cons_eraseIdx edges cp.2 h2
  have p1 := perm_cons_eraseIdx (edges.eraseIdx cp.2) cp.1 h3
  have e : (edges.eraseIdx cp.2).getD cp.1 (0, 0) = edges.getD cp.1 (0, 0) := by
    simp only [List.getD_eq_getElem?_getD, List.getElem?_eraseIdx_of_lt _ _ _ h1]
  rw [e] at p1
  exact (List.Perm.swap _ _ _).trans ((p1.cons _).trans p2)

theorem couples_ordered_valid (couples : List (Nat × Nat)) : ∀ edges : List Edge,
    couples_ordered edges couples → couples_valid edges couples := by
  induction couples with
  | nil => intro edges _; trivial
  | cons cp rest ih =>
    intro edges h
    obtain ⟨h1, h2, h3⟩ := h
    have hl : (edges.eraseIdx cp.2).length = edges.length - 1 := List.length_eraseIdx_of_lt h2
    exact ⟨Nat.ne_of_lt h1, by omega, h2, by omega, ih _ h3⟩

theorem fused_edges_perm (couples : List (Nat × Nat)) : ∀ edges : List Edge,
    couples_ordered edges couples →
      (fused_edges edges couples ++ edges_after edges couples).Perm edges := by
  induction couples with
  | nil => intro edges _; simp [fused_edges, edges_after]
  | cons cp rest ih =>
    intro edges h
    obtain ⟨h1, h2, h3⟩ := h
    have p := ih _ h3
    have q := erase_pair_perm edges cp h1 h2
    simp only [fused_edges, edges_after, List.foldl_cons, List.cons_append] at p ⊢
    exact ((p.cons _).cons _).trans q

theorem binary_reactions_links (couples : List (Nat × Nat)) :
    ∀ (g : RandSrc) (edges : List Edge),
      (binary_reactions g edges couples).flatMap links = fused_edges edges couples := by
  induction couples with
  | nil => intro g edges; rfl
  | cons cp rest ih =>
    intro g edges
    simp [binary_reactions, fused_edges, ih, links, binary_of]

theorem unary_links (ae : ℚ) (l : List Edge) : (l.map (unary_of ae)).flatMap links = l := by
  induction l with
  | nil => rfl
  | cons e rest ih => simp [links, unary_of, ih]

/-- C14, as stated, fails twice.  With four edges and the pairs `(0,1)`, `(2,3)`
(distinct positions of the generator's list, none used twice) the second round
reads position 2 of a list of length 2: the run leaves the vector.  With six
edges and the pairs `(2,0)`, `(1,3)` all accesses are in range, and the edge
`(4,5)` is fused into both binary reactions. -/
theorem assembler_disjoint_positions_fail :
    (∀ cp ∈ [((0 : Nat), (1 : Nat)), (2, 3)],
      cp.1 ≠ cp.2 ∧ cp.1 < ex_edges4.length ∧ cp.2 < ex_edges4.length) ∧
    ([((0 : Nat), (1 : Nat)), (2, 3)].map Prod.fst ++
      [((0 : Nat), (1 : Nat)), (2, 3)].map Prod.snd).Nodup ∧
    (assemble_bi_C 0 0 0 ex_edges4 [(0, 1), (2, 3)] ex_rand).isNone = true ∧
    (∀ cp ∈ [((2 : Nat), (0 : Nat)), (1, 3)],
      cp.1 ≠ cp.2 ∧ cp.1 < ex_edges6.length ∧ cp.2 < ex_edges6.length) ∧
    ([((2 : Nat), (0 : Nat)), (1, 3)].map Prod.fst ++
      [((2 : Nat), (0 : Nat)), (1, 3)].map Prod.snd).Nodup ∧
    (assemble_bi_C 0 0 0 ex_edges6 [(2, 0), (1, 3)] ex_rand).map
        (fun net => (net.re.take 2).map links) =
      some [[(4, 5), (0, 1)], [(4, 5), (10, 11)]] := by
  refine ⟨by decide, by decide, by rfl, by decide, by decide, by rfl⟩

/-- C14, amended: for every edge list and every coupling list whose pairs `(i, j)`
satisfy `i < j < length` of the edge list current when the pair is processed,
the assembler yields a network (no read or erase leaves the list), and the
edges fused by the binary reactions, counted with multiplicity, are among the
edges of the generator's list: no edge is fused twice. -/
theorem assembler_ordered_pairs_safe (ed ad N : Nat) (edges : List Edge)
    (couples : List (Nat × Nat)) (g : RandSrc) (h : couples_ordered edges couples) :
    ∃ net, assemble_bi_C ed ad N edges couples g = some net ∧
      ((net.re.take couples.length).flatMap links).Subperm edges := by
  refine ⟨_, assemble_bi_C_eq ed ad N edges couples g (couples_ordered_valid couples edges h),
    ?_⟩
  have hbl := binary_reactions_length couples (g.advance N) edges
  simp only [List.take_left' hbl, binary_reactions_links]
  exact (List.sublist_append_left _ _).subperm.trans (fused_edges_perm couples edges h).subperm

/-- Witness for C14 amended: six edges and the pairs `(0,2)`, `(1,3)`. -/
theorem assembler_ordered_pairs_safe_witness :
    couples_ordered ex_edges6 [(0, 2), (1, 3)] ∧
    ∃ net, assemble_bi_C 0 0 12 ex_edges6 [(0, 2), (1, 3)] ex_rand = some net ∧
      ((net.re.take [((0 : Nat), (2 : Nat)), (1, 3)].length).flatMap links).Subperm ex_edges6 :=
  ⟨by decide, assembler_ordered_pairs_safe 0 0 12 ex_edges6 [(0, 2), (1, 3)] ex_rand
    (by decide)⟩

/-- C17: for every edge list `E` and every coupling list in which each pair
`(i, j)` satisfies `i < j < length` of the edge list when the pair is processed,
the assembler yields a network (no out-of-range access) and the multiset of
links of its reactions, two per binary reaction and one per unary reaction,
equals the multiset of edges of `E`. -/
theorem assemble_links_are_edges (ed ad N : Nat) (edges : List Edge)
    (couples : List (Nat × Nat)) (g : RandSrc) (h : couples_ordered edges couples) :
    ∃ net, assemble_bi_C ed ad N edges couples g = some net ∧
      (↑(net.re.flatMap links) : Multiset Edge) = (↑edges : Multiset Edge) := by
  refine ⟨_, assemble_bi_C_eq ed ad N edges couples g (couples_ordered_valid couples edges h),
    ?_⟩
  rw [Multiset.coe_eq_coe]
  simp only [List.flatMap_append, binary_reactions_links, unary_links]
  exact fused_edges_perm couples edges h

/-- Witness for C17: six edges and the pairs `(0,2)`, `(1,3)`. -/
theorem assemble_links_are_edges_witness :
    couples_ordered ex_edges6 [(0, 2), (1, 3)] ∧
    ∃ net, assemble_bi_C 0 0 12 ex_edges6 [(0, 2), (1, 3)] ex_rand = some net ∧
      (↑(net.re.flatMap links) : Multiset Edge) = (↑ex_edges6 : Multiset Edge) :=
  ⟨by decide, assemble_links_are_edges 0 0 12 ex_edges6 [(0, 2), (1, 3)] ex_rand (by decide)⟩

/-! ## Blocks of the dispatch -/

theorem mode_create_ER_NM_spec (cl : cl_para) (ext : Extern) :
    block_spec cl "create_ER_NM" False (mode_create_ER_NM cl ext) := by
  intro r
  have hf : fired cl "create_ER_NM" = cl.have_param "create_ER_NM" := by
    unfold fired; rw [if_neg (by decide)]
  rw [hf]
  constructor
  · intro h
    simp [mode_create_ER_NM, h]
  · intro h
    left
    simp only [mode_create_ER_NM, h, if_true]
    exact ⟨_, [_, _], rfl, by simp, rfl⟩

theorem mode_create_ER_NM_bi_C_spec (cl : cl_para) (ext : Extern) :
    block_spec cl "create_ER_NM_bi_C" False (mode_create_ER_NM_bi_C cl ext) := by
  intro r
  have hf : fired cl "create_ER_NM_bi_C" = cl.have_param "create_ER_NM_bi_C" := by
    unfold fired; rw [if_neg (by decide)]
  rw [hf]
  constructor
  · intro h
    simp [mode_create_ER_NM_bi_C, h]
  · intro h
    simp only [mode_create_ER_NM_bi_C, h, if_true]
    split
    · right; right; rfl
    · left; exact ⟨_, [_, _, _], rfl, by simp, rfl⟩

theorem mode_create_BA_NM_spec (cl : cl_para) (ext : Extern) :
    block_spec cl "create_BA_NM" False (mode_create_BA_NM cl ext) := by
  intro r
  have hf : fired cl "create_BA_NM" = cl.have_param "create_BA_NM" := by
    unfold fired; rw [if_neg (by decide)]
  rw [hf]
  constructor
  · intro h
    simp [mode_create_BA_NM, h]
  · intro h
    left
    simp only [mode_create_BA_NM, h, if_true]
    exact ⟨_, [_, _], rfl, by simp, rfl⟩

theorem mode_create_WS_NMalpha_spec (cl : cl_para) (ext : Extern) :
    block_spec cl "create_WS_NMalpha" False (mode_create_WS_NMalpha cl ext) := by
  intro r
  have hf : fired cl "create_WS_NMalpha" = cl.have_param "create_WS_NMalpha" := by
    unfold fired; rw [if_neg (by decide)]
  rw [hf]
  constructor
  · intro h
    simp [mode_create_WS_NMalpha, h]
  · intro h
    left
    simp only [mode_create_WS_NMalpha, h, if_true]
    exact ⟨_, [_, _], rfl, by simp, rfl⟩

theorem mode_create_PS_NMhmr_spec (cl : cl_para) (ext : Extern) :
    block_spec cl "create_PS_NMhmr" False (mode_create_PS_NMhmr cl ext) := by
  intro r
  have hf : fired cl "create_PS_NMhmr" = cl.have_param "create_PS_NMhmr" := by
    unfold fired; rw [if_neg (by decide)]
  rw [hf]
  constructor
  · intro h
    simp [mode_create_PS_NMhmr, h]
  · intro h
    left
    simp only [mode_create_PS_NMhmr, h, if_true]
    exact ⟨_, [_, _], rfl, by simp, rfl⟩

theorem mode_create_BA_NM_bi_C_spec (cl : cl_para) (ext : Extern) :
    block_spec cl "create_BA_NM_bi_C" False (mode_create_BA_NM_bi_C cl ext) := by
  intro r
  have hf : fired cl "create_BA_NM_bi_C" = cl.have_param "create_BA_NM_bi_C" := by
    unfold fired; rw [if_neg (by decide)]
  rw [hf]
  constructor
  · intro h
    simp [mode_create_BA_NM_bi_C, h]
  · intro h
    simp only [mode_create_BA_NM_bi_C, h, if_true]
    split
    · right; right; rfl
    · left; exact ⟨_, [_, _, _], rfl, by simp, rfl⟩

theorem mode_create_WS_NMalpha_bi_C_spec (cl : cl_para) (ext : Extern) :
    block_spec cl "create_WS_NMalpha_bi_C" False (mode_create_WS_NMalpha_bi_C cl ext) := by
  intro r
  have hf : fired cl "create_WS_NMalpha_bi_C" = cl.have_param "create_WS_NMalpha_bi_C" := by
    unfold fired; rw [if_neg (by decide)]
  rw [hf]
  constructor
  · intro h
    simp [mode_create_WS_NMalpha_bi_C, h]
  · intro h
    simp only [mode_create_WS_NMalpha_bi_C, h, if_true]
    split
    · right; right; rfl
    · left; exact ⟨_, [_, _, _], rfl, by simp, rfl⟩

theorem mode_create_PS_NMhmr_bi_C_spec (cl : cl_para) (ext : Extern) :
    block_spec cl "create_PS_NMhmr_bi_C" False (mode_create_PS_NMhmr_bi_C cl ext) := by
  intro r
  have hf : fired cl "create_PS_NMhmr_bi_C" = cl.have_param "create_PS_NMhmr_bi_C" := by
    unfold fired; rw [if_neg (by decide)]
  rw [hf]
  constructor
  · intro h
    simp [mode_create_PS_NMhmr_bi_C, h]
  · intro h
    simp only [mode_create_PS_NMhmr_bi_C, h, if_true]
    split
    · right; right; rfl
    · left; exact ⟨_, [_, _, _], rfl, by simp, rfl⟩

theorem mode_create_SM_NMmr_bi_C_spec (cl : cl_para) (ext : Extern) :
    block_spec cl "create_SM_NMmr_bi_C" False (mode_create_SM_NMmr_bi_C cl ext) := by
  intro r
  have hf : fired cl "create_SM_NMmr_bi_C" = cl.have_param "create_SM_NMmr_bi_C" := by
    unfold fired; rw [if_neg (by decide)]
  rw [hf]
  constructor
  · intro h
    simp [mode_create_SM_NMmr_bi_C, h]
  · intro h
    simp only [mode_create_SM_NMmr_bi_C, h, if_true]
    split
    · right; right; rfl
    · left; exact ⟨_, [_, _, _], rfl, by simp, rfl⟩

theorem mode_print_network_spec (cl : cl_para) (ext : Extern) :
    block_spec cl "print_network" True (mode_print_network cl ext) := by
  intro r
  have hf : fired cl "print_network" = cl.have_param "print_network" := by
    unfold fired; rw [if_neg (by decide)]
  rw [hf]
  constructor
  · intro h
    simp [mode_print_network, h]
  · intro h1
    by_cases h2 : (!cl.have_param "in") = true
    · right; left
      simp only [mode_print_network, h1, h2, if_true]
      exact ⟨trivial, _, [], missing_report "print_network", rfl, Or.inr rfl, rfl⟩
    · cases hr : ext.read_jrnf_reaction_n (cl.get_param "in") with
      | none =>
        right; left
        simp only [mode_print_network, h1, h2, hr, if_true]
        exact ⟨trivial, _, [_], "Error at reading jrnf-file!", rfl, Or.inl rfl, rfl⟩
      | some v =>
        left
        simp only [mode_print_network, h1, h2, hr, if_true]
        exact ⟨_, [_, _], rfl, by simp, rfl⟩

theorem mode_translate_jrnf_sbml_spec (cl : cl_para) (ext : Extern) :
    block_spec cl "translate_jrnf_sbml" True (mode_translate_jrnf_sbml cl ext) := by
  intro r
  have hf : fired cl "translate_jrnf_sbml" = cl.have_param "translate_jrnf_sbml" := by
    unfold fired; rw [if_neg (by decide)]
  rw [hf]
  constructor
  · intro h
    simp [mode_translate_jrnf_sbml, h]
  · intro h1
    by_cases h2 : (!cl.have_param "in" || !cl.have_param "out") = true
    · right; left
      simp only [mode_translate_jrnf_sbml, h1, h2, if_true]
      exact ⟨trivial, _, [], missing_report "translate_jrnf_sbml", rfl, Or.inr rfl, rfl⟩
    · cases hr : ext.read_jrnf_reaction_n (cl.get_param "in") with
      | none =>
        right; left
        simp only [mode_translate_jrnf_sbml, h1, h2, hr, if_true]
        exact ⟨trivial, _, [_], "Error at reading jrnf-file!", rfl, Or.inl rfl, rfl⟩
      | some v =>
        left
        simp only [mode_translate_jrnf_sbml, h1, h2, hr, if_true]
        exact ⟨_, [_, _], rfl, by simp, rfl⟩

theorem mode_transform_rm_species_r_spec (cl : cl_para) (ext : Extern) :
    block_spec cl "transform_rm_species_r" True (mode_transform_rm_species_r cl ext) := by
  intro r
  have hf : fired cl "transform_rm_species_r" = cl.have_param "transform_rm_species_r" := by
    unfold fired; rw [if_neg (by decide)]
  rw [hf]
  constructor
  · intro h
    simp [mode_transform_rm_species_r, h]
  · intro h1
    by_cases h2 : (!cl.have_param "in" || !cl.have_param "out" || !cl.have_param "sp") = true
    · right; left
      simp only [mode_transform_rm_species_r, h1, h2, if_true]
      exact ⟨trivial, _, [], missing_report "transform_rm_species_r", rfl, Or.inr rfl, rfl⟩
    · cases hr : ext.read_jrnf_reaction_n (cl.get_param "in") with
      | none =>
        right; left
        simp only [mode_transform_rm_species_r, h1, h2, hr, if_true]
        exact ⟨trivial, _, [_], "Error at reading jrnf-file!", rfl, Or.inl rfl, rfl⟩
      | some v =>
        left
        simp only [mode_transform_rm_species_r, h1, h2, hr, if_true]
        exact ⟨_, [_, _, _], rfl, by simp, rfl⟩

theorem mode_transform_rm_species_s_spec (cl : cl_para) (ext : Extern) :
    block_spec cl "transform_rm_species_s" True (mode_transform_rm_species_s cl ext) := by
  intro r
  have hf : fired cl "transform_rm_species_s" = cl.have_param "transform_rm_species_s" := by
    unfold fired; rw [if_neg (by decide)]
  rw [hf]
  constructor
  · intro h
    simp [mode_transform_rm_species_s, h]
  · intro h1
    by_cases h2 : (!cl.have_param "in" || !cl.have_param "out" || !cl.have_param "sp") = true
    · right; left
      simp only [mode_transform_rm_species_s, h1, h2, if_true]
      exact ⟨trivial, _, [], missing_report "transform_rm_species_s", rfl, Or.inr rfl, rfl⟩
    · cases hr : ext.read_jrnf_reaction_n (cl.get_param "in") with
      | none =>
        right; left
        simp only [mode_transform_rm_species_s, h1, h2, hr, if_true]
        exact ⟨trivial, _, [_], "Error at reading jrnf-file!", rfl, Or.inl rfl, rfl⟩
      | some v =>
        left
        simp only [mode_transform_rm_species_s, h1, h2, hr, if_true]
        exact ⟨_, [_, _, _], rfl, by simp, rfl⟩

theorem mode_combine_networks_spec (cl : cl_para) (ext : Extern) :
    block_spec cl "combine_networks" True (mode_combine_networks cl ext) := by
  intro r
  have hf : fired cl "combine_networks" = cl.have_param "combine_networks" := by
    unfold fired; rw [if_neg (by decide)]
  rw [hf]
  constructor
  · intro h
    simp [mode_combine_networks, h]
  · intro h1
    by_cases h2 : (!cl.have_param "in1" || !cl.have_param "in2" || !cl.have_param "out") = true
    · right; left
      simp only [mode_combine_networks, h1, h2, if_true]
      exact ⟨trivial, _, [], missing_report "combine_networks", rfl, Or.inr rfl, rfl⟩
    · cases hr1 : ext.read_jrnf_reaction_n (cl.get_param "in1") with
      | none =>
        right; left
        simp only [mode_combine_networks, h1, h2, hr1, if_true]
        exact ⟨trivial, _, [_], "Error at reading jrnf-file!", rfl, Or.inl rfl, rfl⟩
      | some v1 =>
        cases hr2 : ext.read_jrnf_reaction_n (cl.get_param "in2") with
        | none =>
          right; left
          simp only [mode_combine_networks, h1, h2, hr1, hr2, if_true]
          exact ⟨trivial, _, [_, _], "Error at reading jrnf-file!", rfl, Or.inl rfl, rfl⟩
        | some v2 =>
          left
          simp only [mode_combine_networks, h1, h2, hr1, hr2, if_true]
          exact ⟨_, [_, _, _, _], rfl, by simp, rfl⟩

theorem mode_help_spec (cl : cl_para) :
    block_spec cl "help" False (mode_help cl) := by
  intro r
  have hf : fired cl "help" = (cl.have_param "help" || cl.have_param "info") := by
    unfold fired; rw [if_pos rfl]
  rw [hf]
  constructor
  · intro h
    simp only [mode_help, h]; rfl
  · intro h
    left
    simp only [mode_help, h, if_true]
    exact ⟨_, [_], rfl, by simp, rfl⟩

/-! ## The dispatch as a whole -/

theorem mode_index_inj (m t : String) (hm : m ∈ dispatch_order) (ht : t ∈ dispatch_order)
    (h : mode_index m = mode_index t) : m = t :=
  (List.indexOf_inj hm ht).1 h

theorem in_order_append (t : String) (k : Nat) (log : List Event) (acts : List Action)
    (ht : mode_index t = k) (h1 : ∀ e ∈ log, mode_index e.mode < k) (h2 : in_order log) :
    in_order (log ++ acts.map (Event.mk t)) := by
  unfold in_order at h2 ⊢
  rw [List.pairwise_append]
  refine ⟨h2, ?_, ?_⟩
  · rw [List.pairwise_map]
    exact List.pairwise_of_forall (fun _ _ => Nat.le_refl _)
  · intro a ha b hb
    obtain ⟨x, _, rfl⟩ := List.mem_map.1 hb
    have := h1 a ha
    simp only [ht]
    omega

theorem dispatched_step (cl : cl_para) (k : Nat) (t : String) (P : Prop) (b : Run → Outcome)
    (o : Outcome) (hb : block_spec cl t P b) (ht : mode_index t = k)
    (htm : t ∈ dispatch_order) (hP : P → k < 5) (h : o.dispatched cl k) :
    (o.andThen b).dispatched cl (k + 1) := by
  cases o with
  | undefined => trivial
  | exit c r => exact h
  | next r =>
    obtain ⟨h1, h2, h3⟩ := h
    have hcov : ∀ m ∈ dispatch_order, mode_index m < k + 1 → m ≠ t → mode_index m < k := by
      intro m hm hlt hne
      have : mode_index m ≠ k := fun e => hne (mode_index_inj m t hm htm (e.trans ht.symm))
      omega
    simp only [Outcome.andThen]
    cases hf : fired cl t with
    | false =>
      rw [(hb r).1 hf]
      refine ⟨fun e he => ⟨Nat.lt_succ_of_lt (h1 e he).1, (h1 e he).2⟩, h2, ?_⟩
      intro m hm hlt hfm
      by_cases hmt : m = t
      · rw [hmt, hf] at hfm; cases hfm
      · exact h3 m hm (hcov m hm hlt hmt) hfm
    | true =>
      rcases (hb r).2 hf with ⟨r1, acts, e1, hne, hlog⟩ | ⟨hp, r1, acts, s, e1, hs, hlog⟩ | e1
      · rw [e1]
        refine ⟨?_, ?_, ?_⟩
        · intro e he
          rw [hlog, List.mem_append, List.mem_map] at he
          rcases he with he | ⟨a, _, rfl⟩
          · exact ⟨Nat.lt_succ_of_lt (h1 e he).1, (h1 e he).2⟩
          · exact ⟨by simp only [ht]; omega, htm, hf⟩
        · rw [hlog]
          exact in_order_append t k r.log acts ht (fun e he => (h1 e he).1) h2
        · intro m hm hlt hfm
          by_cases hmt : m = t
          · obtain ⟨a, l, rfl⟩ := List.exists_cons_of_ne_nil hne
            exact ⟨Event.mk t a, by rw [hlog]; simp, hmt.symm⟩
          · obtain ⟨e, he, hem⟩ := h3 m hm (hcov m hm hlt hmt) hfm
            exact ⟨e, by rw [hlog]; exact List.mem_append_left _ he, hem⟩
      · rw [e1]
        have hmem : ∀ e ∈ r1.log, e ∈ r.log ∨ e.mode = t := by
          intro e he
          rw [hlog, List.mem_append, List.mem_map] at he
          rcases he with he | ⟨a, _, rfl⟩
          · exact Or.inl he
          · exact Or.inr rfl
        refine ⟨rfl, ?_, ?_, Event.mk t (Action.report s), s, ?_, rfl, hs, ?_, ?_, ?_⟩
        · intro e he
          rcases hmem e he with he | he
          · exact (h1 e he).2
          · rw [he]; exact ⟨htm, hf⟩
        · rw [hlog]
          exact in_order_append t k r.log _ ht (fun e he => (h1 e he).1) h2
        · rw [hlog, List.map_append, ← List.append_assoc]
          exact List.getLast?_concat _
        · simp only [ht]; exact hP hp
        · intro e he
          rcases hmem e he with he | he
          · have := (h1 e he).1
            simp only [ht]; omega
          · rw [he]
        · intro m hm hle hfm
          by_cases hmt : m = t
          · exact ⟨Event.mk t (Action.report s), by rw [hlog]; simp, hmt.symm⟩
          · have hlt : mode_index m < k + 1 := by simp only [ht] at hle; omega
            obtain ⟨e, he, hem⟩ := h3 m hm (hcov m hm hlt hmt) hfm
            exact ⟨e, by rw [hlog]; exact List.mem_append_left _ he, hem⟩
      · rw [e1]; trivial

/-- The state of `main` after its fifteen blocks, before `return 0`. -/
theorem main_blocks_dispatched (cl : cl_para) (ext : Extern) (g : RandSrc) :
    ∃ o : Outcome, o.dispatched cl 15 ∧
      main cl ext g = o.andThen (fun r => Outcome.exit 0 r) := by
  have h0 : (Outcome.next { log := [], rnd := g }).dispatched cl 0 :=
    ⟨fun _ he => by simp at he, List.Pairwise.nil, fun _ _ hlt => absurd hlt (Nat.not_lt_zero _)⟩
  have h1 := dispatched_step cl 0 _ _ _ _ (mode_print_network_spec cl ext) (by decide)
    (by decide) (fun _ => by decide) h0
  have h2 := dispatched_step cl 1 _ _ _ _ (mode_translate_jrnf_sbml_spec cl ext) (by decide)
    (by decide) (fun _ => by decide) h1
  have h3 := dispatched_step cl 2 _ _ _ _ (mode_transform_rm_species_r_spec cl ext) (by decide)
    (by decide) (fun _ => by decide) h2
  have h4 := dispatched_step cl 3 _ _ _ _ (mode_transform_rm_species_s_spec cl ext) (by decide)
    (by decide) (fun _ => by decide) h3
  have h5 := dispatched_step cl 4 _ _ _ _ (mode_combine_networks_spec cl ext) (by decide)
    (by decide) (fun _ => by decide) h4
  have h6 := dispatched_step cl 5 _ _ _ _ (mode_create_ER_NM_spec cl ext) (by decide)
    (by decide) (fun hp => hp.elim) h5
  have h7 := dispatched_step cl 6 _ _ _ _ (mode_create_ER_NM_bi_C_spec cl ext) (by decide)
    (by decide) (fun hp => hp.elim) h6
  have h8 := dispatched_step cl 7 _ _ _ _ (mode_create_BA_NM_spec cl ext) (by decide)
    (by decide) (fun hp => hp.elim) h7
  have h9 := dispatched_step cl 8 _ _ _ _ (mode_create_BA_NM_bi_C_spec cl ext) (by decide)
    (by decide) (fun hp => hp.elim) h8
  have h10 := dispatched_step cl 9 _ _ _ _ (mode_create_WS_NMalpha_spec cl ext) (by decide)
    (by decide) (fun hp => hp.elim) h9
  have h11 := dispatched_step cl 10 _ _ _ _ (mode_create_WS_NMalpha_bi_C_spec cl ext)
    (by decide) (by decide) (fun hp => hp.elim) h10
  have h12 := dispatched_step cl 11 _ _ _ _ (mode_create_PS_NMhmr_spec cl ext) (by decide)
    (by decide) (fun hp => hp.elim) h11
  have h13 := dispatched_step cl 12 _ _ _ _ (mode_create_PS_NMhmr_bi_C_spec cl ext)
    (by decide) (by decide) (fun hp => hp.elim) h12
  have h14 := dispatched_step cl 13 _ _ _ _ (mode_create_SM_NMmr_bi_C_spec cl ext)
    (by decide) (by decide) (fun hp => hp.elim) h13
  have h15 := dispatched_step cl 14 _ _ _ _ (mode_help_spec cl) (by decide)
    (by decide) (fun hp => hp.elim) h14
  exact ⟨_, h15, rfl⟩

/-! ## Read failures -/

theorem stopped_andThen (m : String) (o : Outcome) (f : Run → Outcome) (h : o.stopped m) :
    (o.andThen f).stopped m := by
  obtain ⟨run, rfl, h1⟩ := h
  exact ⟨run, rfl, h1⟩

theorem ahead_andThen (m t : String) (b : Run → Outcome) (o : Outcome)
    (hb : block_ok t b) (ht : t ≠ m) (h : o.ahead m) : (o.andThen b).ahead m := by
  rcases h with ⟨r, rfl, hc⟩ | h
  · have hclean : ∀ acts : List Action, (r.emit t acts).clean m := by
      intro acts ev hev
      simp only [Run.emit, List.mem_append, List.mem_map] at hev
      rcases hev with hev | ⟨a, _, rfl⟩
      · exact hc ev hev
      · exact ht
    rcases hb r with ⟨acts, e⟩ | ⟨acts, s, e⟩
    · exact Or.inl ⟨_, e, hclean acts⟩
    · exact Or.inr ⟨_, e, fun ev hev hm => absurd hm (hclean _ ev hev)⟩
  · exact Or.inr (stopped_andThen m o b h)

theorem stop_after_ahead (m : String) (b : Run → Outcome) (o : Outcome)
    (hb : ∀ r, ∃ acts, b r = Outcome.exit 1 (r.emit m acts) ∧ ∀ a ∈ acts, a.no_work)
    (h : o.ahead m) : (o.andThen b).stopped m := by
  rcases h with ⟨r, rfl, hc⟩ | h
  · obtain ⟨acts, e, ha⟩ := hb r
    refine ⟨_, e, ?_⟩
    intro ev hev hm
    simp only [Run.emit, List.mem_append, List.mem_map] at hev
    rcases hev with hev | ⟨a, hmem, rfl⟩
    · exact absurd hm (hc ev hev)
    · exact ha a hmem
  · exact stopped_andThen m o b h

theorem start_ahead (m : String) (g : RandSrc) :
    (Outcome.next { log := [], rnd := g }).ahead m :=
  Or.inl ⟨_, rfl, fun _ he => by simp at he⟩

theorem read_report_no_work (f : String) :
    ∀ a ∈ [Action.read_jrnf f, Action.report "Error at reading jrnf-file!"], a.no_work := by
  intro a ha
  simp only [List.mem_cons, List.mem_singleton, List.not_mem_nil, or_false] at ha
  rcases ha with rfl | rfl
  · exact Or.inl ⟨_, rfl⟩
  · exact Or.inr ⟨_, rfl⟩

theorem mode_print_network_unread (cl : cl_para) (ext : Extern)
    (hflag : cl.have_param "print_network" = true)
    (hall : ∀ p ∈ ["in"], cl.have_param p = true)
    (hread : ext.read_jrnf_reaction_n (cl.get_param "in") = none) (r : Run) :
    ∃ acts, mode_print_network cl ext r = Outcome.exit 1 (r.emit "print_network" acts) ∧
      ∀ a ∈ acts, a.no_work := by
  have h1 := hall "in" (by simp)
  refine ⟨_, ?_, read_report_no_work (cl.get_param "in")⟩
  simp [mode_print_network, hflag, h1, hread]

theorem mode_translate_jrnf_sbml_unread (cl : cl_para) (ext : Extern)
    (hflag : cl.have_param "translate_jrnf_sbml" = true)
    (hall : ∀ p ∈ ["in", "out"], cl.have_param p = true)
    (hread : ext.read_jrnf_reaction_n (cl.get_param "in") = none) (r : Run) :
    ∃ acts, mode_translate_jrnf_sbml cl ext r =
        Outcome.exit 1 (r.emit "translate_jrnf_sbml" acts) ∧ ∀ a ∈ acts, a.no_work := by
  have h1 := hall "in" (by simp)
  have h2 := hall "out" (by simp)
  refine ⟨_, ?_, read_report_no_work (cl.get_param "in")⟩
  simp [mode_translate_jrnf_sbml, hflag, h1, h2, hread]

theorem mode_transform_rm_species_r_unread (cl : cl_para) (ext : Extern)
    (hflag : cl.have_param "transform_rm_species_r" = true)
    (hall : ∀ p ∈ ["in", "out", "sp"], cl.have_param p = true)
    (hread : ext.read_jrnf_reaction_n (cl.get_param "in") = none) (r : Run) :
    ∃ acts, mode_transform_rm_species_r cl ext r =
        Outcome.exit 1 (r.emit "transform_rm_species_r" acts) ∧ ∀ a ∈ acts, a.no_work := by
  have h1 := hall "in" (by simp)
  have h2 := hall "out" (by simp)
  have h3 := hall "sp" (by simp)
  refine ⟨_, ?_, read_report_no_work (cl.get_param "in")⟩
  simp [mode_transform_rm_species_r, hflag, h1, h2, h3, hread]

theorem mode_transform_rm_species_s_unread (cl : cl_para) (ext : Extern)
    (hflag : cl.have_param "transform_rm_species_s" = true)
    (hall : ∀ p ∈ ["in", "out", "sp"], cl.have_param p = true)
    (hread : ext.read_jrnf_reaction_n (cl.get_param "in") = none) (r : Run) :
    ∃ acts, mode_transform_rm_species_s cl ext r =
        Outcome.exit 1 (r.emit "transform_rm_species_s" acts) ∧ ∀ a ∈ acts, a.no_work := by
  have h1 := hall "in" (by simp)
  have h2 := hall "out" (by simp)
  have h3 := hall "sp" (by simp)
  refine ⟨_, ?_, read_report_no_work (cl.get_param "in")⟩
  simp [mode_transform_rm_species_s, hflag, h1, h2, h3, hread]

theorem mode_combine_networks_unread (cl : cl_para) (ext : Extern)
    (hflag : cl.have_param "combine_networks" = true)
    (hall : ∀ p ∈ ["in1", "in2", "out"], cl.have_param p = true)
    (hread : ext.read_jrnf_reaction_n (cl.get_param "in1") = none ∨
      ext.read_jrnf_reaction_n (cl.get_param "in2") = none) (r : Run) :
    ∃ acts, mode_combine_networks cl ext r =
        Outcome.exit 1 (r.emit "combine_networks" acts) ∧ ∀ a ∈ acts, a.no_work := by
  have h1 := hall "in1" (by simp)
  have h2 := hall "in2" (by simp)
  have h3 := hall "out" (by simp)
  cases hr1 : ext.read_jrnf_reaction_n (cl.get_param "in1") with
  | none =>
    refine ⟨_, ?_, read_report_no_work (cl.get_param "in1")⟩
    simp [mode_combine_networks, hflag, h1, h2, h3, hr1]
  | some v1 =>
    have hr2 : ext.read_jrnf_reaction_n (cl.get_param "in2") = none := by
      rcases hread with h | h
      · rw [hr1] at h; cases h
      · exact h
    refine ⟨[Action.read_jrnf (cl.get_param "in1"), Action.read_jrnf (cl.get_param "in2"),
      Action.report "Error at reading jrnf-file!"], ?_, ?_⟩
    · simp [mode_combine_networks, hflag, h1, h2, h3, hr1, hr2]
    · intro a ha
      simp only [List.mem_cons, List.mem_singleton, List.not_mem_nil, or_false] at ha
      rcases ha with rfl | rfl | rfl
      · exact Or.inl ⟨_, rfl⟩
      · exact Or.inl ⟨_, rfl⟩
      · exact Or.inr ⟨_, rfl⟩

/-- C11: for every file mode (`print_network`, `translate_jrnf_sbml`,
`transform_rm_species_r`, `transform_rm_species_s`, `combine_networks`) whose
flag and required parameters are present, if reading one of its input files
fails then the program exits with code 1 and every action of that mode is a
read or a diagnostic: no transform or combine is called and nothing is written. -/
theorem file_mode_read_failure (cl : cl_para) (ext : Extern) (g : RandSrc)
    (m : String) (req : List String) (hm : (m, req) ∈ file_modes)
    (hflag : cl.have_param m = true) (hall : ∀ p ∈ req, cl.have_param p = true)
    (hread : ∃ f ∈ input_files cl m, ext.read_jrnf_reaction_n f = none) :
    ∃ run, main cl ext g = Outcome.exit 1 run ∧
      ∀ e ∈ run.log, e.mode = m →
        (∃ f, e.act = Action.read_jrnf f) ∨ (∃ s, e.act = Action.report s) := by
  have b1 := mode_print_network_ok cl ext
  have b2 := mode_translate_jrnf_sbml_ok cl ext
  have b3 := mode_transform_rm_species_r_ok cl ext
  have b4 := mode_transform_rm_species_s_ok cl ext
  change (main cl ext g).stopped m
  unfold main
  simp only [file_modes, List.mem_cons, List.mem_singleton, Prod.mk.injEq, List.not_mem_nil,
    or_false] at hm
  rcases hm with ⟨rfl, rfl⟩ | ⟨rfl, rfl⟩ | ⟨rfl, rfl⟩ | ⟨rfl, rfl⟩ | ⟨rfl, rfl⟩
  · have hr : ext.read_jrnf_reaction_n (cl.get_param "in") = none := by
      simpa [input_files] using hread
    iterate 15 apply stopped_andThen
    exact stop_after_ahead _ _ (Outcome.next { log := [], rnd := g })
      (mode_print_network_unread cl ext hflag hall hr) (start_ahead _ g)
  · have hr : ext.read_jrnf_reaction_n (cl.get_param "in") = none := by
      simpa [input_files] using hread
    iterate 14 apply stopped_andThen
    refine stop_after_ahead _ _ _ (mode_translate_jrnf_sbml_unread cl ext hflag hall hr) ?_
    exact ahead_andThen _ _ _ (Outcome.next { log := [], rnd := g }) b1 (by decide)
      (start_ahead _ g)
  · have hr : ext.read_jrnf_reaction_n (cl.get_param "in") = none := by
      simpa [input_files] using hread
    iterate 13 apply stopped_andThen
    refine stop_after_ahead _ _ _ (mode_transform_rm_species_r_unread cl ext hflag hall hr) ?_
    refine ahead_andThen _ _ _ _ b2 (by decide) ?_
    exact ahead_andThen _ _ _ (Outcome.next { log := [], rnd := g }) b1 (by decide)
      (start_ahead _ g)
  · have hr : ext.read_jrnf_reaction_n (cl.get_param "in") = none := by
      simpa [input_files] using hread
    iterate 12 apply stopped_andThen
    refine stop_after_ahead _ _ _ (mode_transform_rm_species_s_unread cl ext hflag hall hr) ?_
    refine ahead_andThen _ _ _ _ b3 (by decide) ?_
    refine ahead_andThen _ _ _ _ b2 (by decide) ?_
    exact ahead_andThen _ _ _ (Outcome.next { log := [], rnd := g }) b1 (by decide)
      (start_ahead _ g)
  · have hr : ext.read_jrnf_reaction_n (cl.get_param "in1") = none ∨
        ext.read_jrnf_reaction_n (cl.get_param "in2") = none := by
      simpa [input_files] using hread
    iterate 11 apply stopped_andThen
    refine stop_after_ahead _ _ _ (mode_combine_networks_unread cl ext hflag hall hr) ?_
    refine ahead_andThen _ _ _ _ b4 (by decide) ?_
    refine ahead_andThen _ _ _ _ b3 (by decide) ?_
    refine ahead_andThen _ _ _ _ b2 (by decide) ?_
    exact ahead_andThen _ _ _ (Outcome.next { log := [], rnd := g }) b1 (by decide)
      (start_ahead _ g)

/-- Witness for C11: `transform_rm_species_r` with all parameters on an unreadable
file. -/
theorem file_mode_read_failure_witness :
    ("transform_rm_species_r", ["in", "out", "sp"]) ∈ file_modes ∧
    (ex_cl ["transform_rm_species_r", "in", "out", "sp"]).have_param
      "transform_rm_species_r" = true ∧
    (∀ p ∈ ["in", "out", "sp"],
      (ex_cl ["transform_rm_species_r", "in", "out", "sp"]).have_param p = true) ∧
    (∃ f ∈ input_files (ex_cl ["transform_rm_species_r", "in", "out", "sp"])
      "transform_rm_species_r", ex_extern_unreadable.read_jrnf_reaction_n f = none) ∧
    ∃ run, main (ex_cl ["transform_rm_species_r", "in", "out", "sp"]) ex_extern_unreadable
        ex_rand = Outcome.exit 1 run ∧
      ∀ e ∈ run.log, e.mode = "transform_rm_species_r" →
        (∃ f, e.act = Action.read_jrnf f) ∨ (∃ s, e.act = Action.report s) :=
  ⟨by decide, by decide, by decide, ⟨"", by decide, rfl⟩,
    file_mode_read_failure (ex_cl ["transform_rm_species_r", "in", "out", "sp"])
      ex_extern_unreadable ex_rand "transform_rm_species_r" ["in", "out", "sp"] (by decide)
      (by decide) (by decide) ⟨"", by decide, rfl⟩⟩

/-! ## Write failures -/

theorem andThen_defined (o : Outcome) (b : Run → Outcome) (ho : o ≠ Outcome.undefined)
    (hb : ∀ r, b r ≠ Outcome.undefined) : o.andThen b ≠ Outcome.undefined := by
  cases o with
  | undefined => exact absurd rfl ho
  | next r => exact hb r
  | exit c r => intro h; cases h

theorem mode_print_network_defined (cl : cl_para) (ext : Extern) (r : Run) :
    mode_print_network cl ext r ≠ Outcome.undefined := by
  intro h
  unfold mode_print_network at h
  try simp only at h
  repeat' (split at h)
  all_goals cases h

theorem mode_translate_jrnf_sbml_defined (cl : cl_para) (ext : Extern) (r : Run) :
    mode_translate_jrnf_sbml cl ext r ≠ Outcome.undefined := by
  intro h
  unfold mode_translate_jrnf_sbml at h
  try simp only at h
  repeat' (split at h)
  all_goals cases h

theorem mode_transform_rm_species_r_defined (cl : cl_para) (ext : Extern) (r : Run) :
    mode_transform_rm_species_r cl ext r ≠ Outcome.undefined := by
  intro h
  unfold mode_transform_rm_species_r at h
  try simp only at h
  repeat' (split at h)
  all_goals cases h

theorem mode_transform_rm_species_s_defined (cl : cl_para) (ext : Extern) (r : Run) :
    mode_transform_rm_species_s cl ext r ≠ Outcome.undefined := by
  intro h
  unfold mode_transform_rm_species_s at h
  try simp only at h
  repeat' (split at h)
  all_goals cases h

theorem mode_combine_networks_defined (cl : cl_para) (ext : Extern) (r : Run) :
    mode_combine_networks cl ext r ≠ Outcome.undefined := by
  intro h
  unfold mode_combine_networks at h
  try simp only at h
  repeat' (split at h)
  all_goals cases h

theorem mode_create_ER_NM_defined (cl : cl_para) (ext : Extern) (r : Run) :
    mode_create_ER_NM cl ext r ≠ Outcome.undefined := by
  intro h
  unfold mode_create_ER_NM at h
  try simp only at h
  repeat' (split at h)
  all_goals cases h

theorem mode_create_BA_NM_defined (cl : cl_para) (ext : Extern) (r : Run) :
    mode_create_BA_NM cl ext r ≠ Outcome.undefined := by
  intro h
  unfold mode_create_BA_NM at h
  try simp only at h
  repeat' (split at h)
  all_goals cases h

theorem mode_create_WS_NMalpha_defined (cl : cl_para) (ext : Extern) (r : Run) :
    mode_create_WS_NMalpha cl ext r ≠ Outcome.undefined := by
  intro h
  unfold mode_create_WS_NMalpha at h
  try simp only at h
  repeat' (split at h)
  all_goals cases h

theorem mode_create_PS_NMhmr_defined (cl : cl_para) (ext : Extern) (r : Run) :
    mode_create_PS_NMhmr cl ext r ≠ Outcome.undefined := by
  intro h
  unfold mode_create_PS_NMhmr at h
  try simp only at h
  repeat' (split at h)
  all_goals cases h

theorem mode_help_defined (cl : cl_para) (r : Run) :
    mode_help cl r ≠ Outcome.undefined := by
  intro h
  unfold mode_help at h
  try simp only at h
  repeat' (split at h)
  all_goals cases h

theorem mode_create_ER_NM_bi_C_defined (cl : cl_para) (ext : Extern)
    (hext : ext.couplers_valid) (r : Run) :
    mode_create_ER_NM_bi_C cl ext r ≠ Outcome.undefined := by
  have hv := hext.1 r.rnd (cl.get_param_i "N") (cl.get_param_i "M") (cl.get_param_i "C")
    (cl.have_param "limit_coupling") (cl.have_param "allow_multiple")
    (cl.have_param "self_loop") (cl.have_param "directed")
  intro h
  unfold mode_create_ER_NM_bi_C at h
  simp only [assemble_bi_C_eq _ _ _ _ _ _ hv] at h
  repeat' (split at h)
  all_goals cases h

theorem mode_create_BA_NM_bi_C_defined (cl : cl_para) (ext : Extern)
    (hext : ext.couplers_valid) (r : Run) :
    mode_create_BA_NM_bi_C cl ext r ≠ Outcome.undefined := by
  have hv := hext.2.1 r.rnd (cl.get_param_i "N") (cl.get_param_i "M") (cl.get_param_i "C")
    (cl.have_param "limit_coupling") (cl.have_param "allow_multiple")
    (cl.have_param "self_loop") (cl.have_param "directed")
  intro h
  unfold mode_create_BA_NM_bi_C at h
  simp only [assemble_bi_C_eq _ _ _ _ _ _ hv] at h
  repeat' (split at h)
  all_goals cases h

theorem mode_create_WS_NMalpha_bi_C_defined (cl : cl_para) (ext : Extern)
    (hext : ext.couplers_valid) (r : Run) :
    mode_create_WS_NMalpha_bi_C cl ext r ≠ Outcome.undefined := by
  have hv := hext.2.2.1 r.rnd (cl.get_param_i "N") (cl.get_param_i "M") (cl.get_param_i "C") (cl.get_param_d "alpha")
    (cl.have_param "limit_coupling") (cl.have_param "allow_multiple")
    (cl.have_param "self_loop") (cl.have_param "directed")
  intro h
  unfold mode_create_WS_NMalpha_bi_C at h
  simp only [assemble_bi_C_eq _ _ _ _ _ _ hv] at h
  repeat' (split at h)
  all_goals cases h

theorem mode_create_PS_NMhmr_bi_C_defined (cl : cl_para) (ext : Extern)
    (hext : ext.couplers_valid) (r : Run) :
    mode_create_PS_NMhmr_bi_C cl ext r ≠ Outcome.undefined := by
  have hv := hext.2.2.2.1 r.rnd (cl.get_param_i "N") (cl.get_param_i "M") (cl.get_param_i "h") (cl.get_param_i "m") (cl.get_param_i "C") (cl.get_param_d "r")
    (cl.have_param "limit_coupling") (cl.have_param "allow_multiple")
    (cl.have_param "self_loop") (cl.have_param "directed")
  intro h
  unfold mode_create_PS_NMhmr_bi_C at h
  simp only [assemble_bi_C_eq _ _ _ _ _ _ hv] at h
  repeat' (split at h)
  all_goals cases h

theorem mode_create_SM_NMmr_bi_C_defined (cl : cl_para) (ext : Extern)
    (hext : ext.couplers_valid) (r : Run) :
    mode_create_SM_NMmr_bi_C cl ext r ≠ Outcome.undefined := by
  have hv := hext.2.2.2.2 r.rnd (cl.get_param_i "N") (cl.get_param_i "M") (cl.get_param_i "m") (cl.get_param_i "C") (cl.get_param_d "r")
    (cl.have_param "limit_coupling") (cl.have_param "allow_multiple")
    (cl.have_param "self_loop") (cl.have_param "directed")
  intro h
  unfold mode_create_SM_NMmr_bi_C at h
  simp only [assemble_bi_C_eq _ _ _ _ _ _ hv] at h
  repeat' (split at h)
  all_goals cases h

/-- Under the couplers' contract `main` does not leave defined behaviour. -/
theorem main_defined (cl : cl_para) (ext : Extern) (g : RandSrc) (hext : ext.couplers_valid) :
    main cl ext g ≠ Outcome.undefined := by
  unfold main
  refine andThen_defined _ _ ?_ (fun r h => by cases h)
  refine andThen_defined _ _ ?_ (mode_help_defined cl)
  refine andThen_defined _ _ ?_ (mode_create_SM_NMmr_bi_C_defined cl ext hext)
  refine andThen_defined _ _ ?_ (mode_create_PS_NMhmr_bi_C_defined cl ext hext)
  refine andThen_defined _ _ ?_ (mode_create_PS_NMhmr_defined cl ext)
  refine andThen_defined _ _ ?_ (mode_create_WS_NMalpha_bi_C_defined cl ext hext)
  refine andThen_defined _ _ ?_ (mode_create_WS_NMalpha_defined cl ext)
  refine andThen_defined _ _ ?_ (mode_create_BA_NM_bi_C_defined cl ext hext)
  refine andThen_defined _ _ ?_ (mode_create_BA_NM_defined cl ext)
  refine andThen_defined _ _ ?_ (mode_create_ER_NM_bi_C_defined cl ext hext)
  refine andThen_defined _ _ ?_ (mode_create_ER_NM_defined cl ext)
  refine andThen_defined _ _ ?_ (mode_combine_networks_defined cl ext)
  refine andThen_defined _ _ ?_ (mode_transform_rm_species_s_defined cl ext)
  refine andThen_defined _ _ ?_ (mode_transform_rm_species_r_defined cl ext)
  refine andThen_defined _ _ ?_ (mode_translate_jrnf_sbml_defined cl ext)
  exact mode_print_network_defined cl ext _

/-! ## Dispatch order -/

/-- C13, as stated, fails: with the flags `print_network` and `help` and no `in`,
the block of `print_network` reports the missing parameter and returns 1; the
block of `help`, later in the order, does not fire. -/
theorem later_mode_skipped_after_failure :
    fired (ex_cl ["print_network", "help"]) "print_network" = true ∧
    fired (ex_cl ["print_network", "help"]) "help" = true ∧
    (main (ex_cl ["print_network", "help"]) ex_extern ex_rand).code = some 1 ∧
    (main (ex_cl ["print_network", "help"]) ex_extern ex_rand).events =
      [Event.mk "print_network" (Action.report (missing_report "print_network"))] := by
  refine ⟨by decide, by decide, by rfl, by rfl⟩

/-- C13, amended: for every set of command-line parameters, provided the coupling
lists the couplers return are valid on the generators' edge lists (so that no
coupled assembler leaves its edge vector), `main` returns with exit code 0 or 1;
the blocks run in the fixed dispatch order and only modes whose flag is present
act.  With exit code 0 every mode whose flag is present has fired, in dispatch
order.  With exit code 1 the last event is the diagnostic of a file mode, every
mode with its flag present up to that mode has fired in dispatch order, and no
later mode has fired. -/
theorem dispatch_until_first_failure (cl : cl_para) (ext : Extern) (g : RandSrc)
    (hext : ext.couplers_valid) :
    ∃ c run, main cl ext g = Outcome.exit c run ∧ (c = 0 ∨ c = 1) ∧
      (∀ e ∈ run.log, e.mode ∈ dispatch_order ∧ fired cl e.mode = true) ∧
      in_order run.log ∧
      (c = 0 → ∀ m ∈ dispatch_order, fired cl m = true → ∃ e ∈ run.log, e.mode = m) ∧
      (c = 1 → ∃ e s, run.log.getLast? = some e ∧ e.act = Action.report s ∧
        mode_index e.mode < 5 ∧ (∀ e1 ∈ run.log, mode_index e1.mode ≤ mode_index e.mode) ∧
        (∀ m ∈ dispatch_order, mode_index m ≤ mode_index e.mode → fired cl m = true →
          ∃ e1 ∈ run.log, e1.mode = m)) := by
  obtain ⟨o, ho, hmain⟩ := main_blocks_dispatched cl ext g
  have hdef := main_defined cl ext g hext
  rw [hmain] at hdef ⊢
  cases o with
  | undefined => exact absurd rfl hdef
  | next r =>
    obtain ⟨h1, h2, h3⟩ := ho
    exact ⟨0, r, rfl, Or.inl rfl, fun e he => (h1 e he).2, h2,
      fun _ m hm hf => h3 m hm (List.indexOf_lt_length.2 hm) hf,
      fun h => absurd h (by decide)⟩
  | exit c1 r =>
    obtain ⟨hc1, hall, hord, e, s, l1, l2, _, l4, l5, l6⟩ := ho
    subst hc1
    exact ⟨1, r, rfl, Or.inr rfl, hall, hord, fun h => absurd h (by decide),
      fun _ => ⟨e, s, l1, l2, l4, l5, l6⟩⟩

/-- Witness for C13 amended: the flags `create_ER_NM_bi_C` and `help`, a generator
that returns six edges and a coupler that returns the pair `(0, 1)`. -/
theorem dispatch_until_first_failure_witness :
    ex_extern_coupling.couplers_valid ∧
    ∃ c run, main (ex_cl ["create_ER_NM_bi_C", "help"]) ex_extern_coupling ex_rand =
        Outcome.exit c run ∧ (c = 0 ∨ c = 1) ∧
      (∀ e ∈ run.log, e.mode ∈ dispatch_order ∧
        fired (ex_cl ["create_ER_NM_bi_C", "help"]) e.mode = true) ∧
      in_order run.log ∧
      (c = 0 → ∀ m ∈ dispatch_order, fired (ex_cl ["create_ER_NM_bi_C", "help"]) m = true →
        ∃ e ∈ run.log, e.mode = m) ∧
      (c = 1 → ∃ e s, run.log.getLast? = some e ∧ e.act = Action.report s ∧
        mode_index e.mode < 5 ∧ (∀ e1 ∈ run.log, mode_index e1.mode ≤ mode_index e.mode) ∧
        (∀ m ∈ dispatch_order, mode_index m ≤ mode_index e.mode →
          fired (ex_cl ["create_ER_NM_bi_C", "help"]) m = true →
          ∃ e1 ∈ run.log, e1.mode = m)) := by
  have hv : ex_extern_coupling.couplers_valid :=
    ⟨fun _ _ _ _ _ _ _ _ => show couples_valid ex_edges6 [(0, 1)] from by decide,
      fun _ _ _ _ _ _ _ _ => trivial, fun _ _ _ _ _ _ _ _ _ => trivial,
      fun _ _ _ _ _ _ _ _ _ _ _ => trivial, fun _ _ _ _ _ _ _ _ _ _ => trivial⟩
  exact ⟨hv, dispatch_until_first_failure (ex_cl ["create_ER_NM_bi_C", "help"])
    ex_extern_coupling ex_rand hv⟩

end JrnfTools
